import Mathlib

set_option maxRecDepth 100000
set_option maxHeartbeats 2000000

/-!
Verification development for the nanoBASIC UNO interpreter core
(`src/nano_basic_uno.cpp`, 16-bit build: `NANOBASIC_INT32_EN = 0`).

The C sources are shallowly embedded: machine integers (`nb_int_t` =
`int16_t`) are modelled as `Int` reduced modulo `2^16` into
`[-32768, 32767]` by `wrap16`; byte buffers are `List Nat`; the global
interpreter state is the structure `St`; loops are given explicit fuel.
External collaborators (console, GPIO/ADC/PWM, millisecond tick, random
source, EEPROM block store) are out of the core's scope and are modelled
as oracle fields of the state.
-/

namespace NanoBasic

/-- Configuration constants of the UNO build (`nano_basic_uno_conf.h`). -/
def CODE_BUFF_SIZE : Nat := 80
def STACK_NUM : Nat := 8
def ARRAY_INDEX_NUM : Nat := 64
def PROGRAM_AREA_SIZE : Nat := 768
def EXPR_DEPTH_MAX : Nat := 16

/-! Internal code bytes (`nano_basic_defs.h`). -/

def ST_EOL : Nat := 0x00
def ST_VAL : Nat := 0x08
def ST_VAL_DEC : Nat := 0x08
def ST_VAL_HEX : Nat := 0x0c
def ST_STRING : Nat := 0x22
def ST_ARRAY : Nat := 0x40      -- '@'
def ST_COMMENT : Nat := 0x27
def TOKEN_START : Nat := 0x80
def STCODE_START : Nat := 0x80
def ST_PRINT : Nat := 0x80
def ST_INPUT : Nat := 0x81
def ST_GOTO : Nat := 0x82
def ST_GOSUB : Nat := 0x83
def ST_RETURN : Nat := 0x84
def ST_FOR : Nat := 0x85
def ST_NEXT : Nat := 0x86
def ST_DO : Nat := 0x87
def ST_LOOP : Nat := 0x88
def ST_WHILE : Nat := 0x89
def ST_IF : Nat := 0x8a
def ST_RUN : Nat := 0x8b
def ST_RESUME : Nat := 0x8c
def ST_STOP : Nat := 0x8d
def ST_END : Nat := 0x8e
def ST_NEW : Nat := 0x8f
def ST_LIST : Nat := 0x90
def ST_PROG : Nat := 0x91
def ST_SAVE : Nat := 0x92
def ST_LOAD : Nat := 0x93
def ST_DELAY : Nat := 0x94
def ST_PAUSE : Nat := 0x95
def ST_RESET : Nat := 0x96
def ST_EXIT : Nat := 0x97
def ST_CONTINUE : Nat := 0x98
def ST_RONDOMIZE : Nat := 0x99
def ST_DATA : Nat := 0x9a
def ST_READ : Nat := 0x9b
def ST_RESTORE : Nat := 0x9c
def ST_OUTP : Nat := 0x9d
def ST_PWM : Nat := 0x9e
def STSP_START : Nat := 0x9f
def ST_ELSE : Nat := 0x9f
def ST_ELSEIF : Nat := 0xa0
def ST_ENDIF : Nat := 0xa1
def STCODE_END : Nat := 0xa1
def ST_THEN : Nat := 0xa2
def ST_TO : Nat := 0xa3
def ST_STEP : Nat := 0xa4
def STSP_END : Nat := 0xa4
def FUNC_START : Nat := 0xa5
def FUNC_RND : Nat := 0xa5
def FUNC_ABS : Nat := 0xa6
def FUNC_INP : Nat := 0xa7
def FUNC_ADC : Nat := 0xa8
def FUNC_INKEY : Nat := 0xa9
def FUNC_CHR : Nat := 0xaa
def FUNC_DEC : Nat := 0xab
def FUNC_HEX : Nat := 0xac
def SVAR_TICK : Nat := 0xad

def VAL_ST_MASK : Nat := 0xf8
def VAL_BASE_HEX : Nat := 0x04
def VAL_BASE_MASK : Nat := 0x04
def VAL_SIZE_8 : Nat := 0x00
def VAL_SIZE_16 : Nat := 0x01
def VAL_SIZE_MASK : Nat := 0x03

def ASCII_SP : Nat := 0x20
def CHR_BREAK : Nat := 0x03
def CHR_PROG_TERM : Nat := 0x23  -- '#'

/-! Error codes (`error_code_e`). -/

def ERROR_NONE : Nat := 0
def ERROR_BREAK : Nat := 255
def ERROR_SYNTAX : Nat := 1
def ERROR_DIVZERO : Nat := 2
def ERROR_ARRAY : Nat := 3
def ERROR_PARA : Nat := 4
def ERROR_STACK : Nat := 5
def ERROR_RESUME : Nat := 6
def ERROR_LABEL : Nat := 7
def ERROR_NOTINRUN : Nat := 8
def ERROR_PGOVER : Nat := 9
def ERROR_PGEMPTY : Nat := 10
def ERROR_NOLOOP : Nat := 11
def ERROR_NOENDIF : Nat := 12
def ERROR_TOODEEP : Nat := 13
def ERROR_UXNEXT : Nat := 14
def ERROR_UXRETURN : Nat := 15
def ERROR_UXLOOP : Nat := 16
def ERROR_UXEXIT : Nat := 17
def ERROR_UXCONTINUE : Nat := 18
def ERROR_UXREAD : Nat := 19
def ERROR_CODE_MAX : Nat := 19

/-- Request codes (`request_code_e`). -/
def REQUEST_GOTO : Nat := 1
def REQUEST_END : Nat := 2

/-! ### 16-bit integer model

`nb_int_t` is `int16_t`.  A value is kept as an `Int`; `wrap16` performs
the two's-complement reduction applied by 16-bit machine arithmetic. -/

/-- Unsigned 16-bit image of an integer (the `(nb_uint_t)` cast). -/
def toU16 (z : Int) : Nat := ((z % 65536 + 65536) % 65536).toNat

/-- Signed reading of an unsigned 16-bit value. -/
def ofU16 (u : Nat) : Int := if u % 65536 < 32768 then (u % 65536 : Int) else (u % 65536 : Int) - 65536

/-- Two's-complement wrap of machine arithmetic on `int16_t`. -/
def wrap16 (z : Int) : Int := ofU16 (toU16 z)

/-- Signed reading of one byte (the `(int8_t)` cast in `get_dec_val`). -/
def ofU8 (u : Nat) : Int := if u % 256 < 128 then (u % 256 : Int) else (u % 256 : Int) - 256

/-- 16-bit bitwise AND as in `acc & val` on `nb_int_t`. -/
def band16 (a b : Int) : Int := ofU16 (toU16 a &&& toU16 b)

/-- 16-bit bitwise OR. -/
def bor16 (a b : Int) : Int := ofU16 (toU16 a ||| toU16 b)

/-- 16-bit bitwise XOR. -/
def bxor16 (a b : Int) : Int := ofU16 (toU16 a ^^^ toU16 b)

/-- 16-bit bitwise NOT (`~x`). -/
def bnot16 (a : Int) : Int := wrap16 (-a - 1)

/-- `acc << val` on `int16_t` (shift counts outside 0..15 are undefined
behaviour in the source; we fix the AVR-typical truncation). -/
def shl16 (a b : Int) : Int := ofU16 (toU16 a <<< (toU16 b % 16))

/-- `acc >> val`: arithmetic shift right (floor division by a power of two). -/
def shr16 (a b : Int) : Int := Int.fdiv a ((2 : Int) ^ (toU16 b % 16))

/-- C division on `int16_t` (truncation toward zero). -/
def cdiv (a b : Int) : Int := wrap16 (Int.tdiv a b)

/-- C remainder on `int16_t`. -/
def cmod (a b : Int) : Int := wrap16 (Int.tmod a b)

/-! ### Value-literal bytecode (`get_dec_val` / `set_dec_val`)

The C functions walk raw pointers; here they consume/produce byte lists.
`get_dec_val` reads from a position in a buffer and returns the decoded
value together with the position just past the literal (`NULL` becomes
`none`). -/

/-- `GET_VAL_SIZE(c)` — `(c & VAL_SIZE_MASK) + 1`, written arithmetically
(all mask tests below are stated with `/` and `%` on byte values, which is
what the C bit masks compute on bytes). -/
def GET_VAL_SIZE (c : Nat) : Nat := c % 4 + 1

/-- `IS_ST_VAL(c)` — `(c & 0xf8) == 0x08`, i.e. the byte lies in `0x08..0x0f`. -/
def IS_ST_VAL (c : Nat) : Bool := decide (8 ≤ c % 256 ∧ c % 256 ≤ 15)

/-- `IS_ST_VAL_DEC(c)` — `(c & 0xfc) == 0x08`, i.e. the byte lies in `0x08..0x0b`. -/
def IS_ST_VAL_DEC (c : Nat) : Bool := decide (8 ≤ c % 256 ∧ c % 256 ≤ 11)

/-- `IS_VAL(c)`. -/
def IS_VAL (c : Nat) : Bool := IS_ST_VAL c || (0x30 ≤ c && c ≤ 0x39)

/-- `IS_VALID_CHR(c)`. -/
def IS_VALID_CHR (c : Nat) : Bool :=
  c < 0x3f || c == 0x5e || c == 0x7c || c == 0x7e || c == 0x5b || c == 0x5d

/-- Byte at index `i` of a buffer (out-of-range reads yield the EOL byte). -/
def byteAt (buf : List Nat) (i : Nat) : Nat := buf.getD i 0

/-- `get_dec_val` (16-bit build): decode a value literal at index `i` of
`buf`; `some (v, j)` returns the value and the index past the literal. -/
def get_dec_val (buf : List Nat) (i : Nat) : Option (Int × Nat) :=
  let c0 := byteAt buf i
  if 0x30 ≤ c0 ∧ c0 ≤ 0x39 then
    some ((c0 : Int) - 0x30, i + 1)
  else if ¬ IS_ST_VAL c0 then
    none
  else
    let size := c0 % 4    -- c0 & VAL_SIZE_MASK
    if size = VAL_SIZE_8 then
      some (ofU8 (byteAt buf (i + 1)), i + 2)
    else
      some (ofU16 (byteAt buf (i + 2) % 256 * 256 + byteAt buf (i + 1) % 256), i + 3)

/-- `set_dec_val` (16-bit build): the bytes emitted for value `val` when the
pending tag byte is `tag` (`ST_VAL_DEC` or `ST_VAL_HEX`); the C writes the
tag in place and appends the little-endian payload. -/
def set_dec_val (tag : Nat) (val : Int) : List Nat :=
  if tag = ST_VAL_DEC ∧ 0 ≤ val ∧ val ≤ 9 then
    [(val + 0x30).toNat]
  else
    let u := toU16 val
    if -128 ≤ val ∧ val ≤ 127 then
      [tag, u % 256]              -- tag | VAL_SIZE_8
    else
      [tag + VAL_SIZE_16, u % 256, u / 256 % 256]  -- tag | VAL_SIZE_16 (low bits of the tag are clear)

/-- `get_next_ptr`: advance one opcode, skipping a value payload. -/
def get_next_ptr (buf : List Nat) (i : Nat) : Nat :=
  let ch := byteAt buf i
  if IS_ST_VAL ch then i + 1 + GET_VAL_SIZE ch else i + 1

/-! ### `int2str`

`int2str(para, ff, len)` renders `para` into a static buffer right to left
and returns a pointer into it; we build the same character list.  The digit
loop is given fuel (the C loop runs at most `dot + 11` iterations for the
arguments reachable here). -/

def FORM_FLAG : Nat := 0x01
def FORM_PLUS : Nat := 0x02
def FORM_HEX : Nat := 0x04
def FORM_ZERO : Nat := 0x10
def FORM_LOWER : Nat := 0x20
def FORM_DEC : Nat := 0x80
def FORM_FHEX : Nat := FORM_HEX ||| FORM_FLAG

/-- Test of a single-bit flag `m` in `ff` (`ff & m` as a Boolean; `m` is a
power of two, so the bit is set exactly when `m ≤ ff % (2 * m)`). -/
def ffBit (ff m : Nat) : Bool := decide (m ≤ ff % (2 * m))

/-- One digit of the `int2str` loop body. -/
def int2strDigit (ff : Nat) (val : Nat) : Nat :=
  if ffBit ff FORM_HEX then
    let ch := val % 16 + 0x30
    if ch > 0x39 then ch + 0x07 + (if ffBit ff FORM_LOWER then FORM_LOWER else 0) else ch
  else
    val % 10 + 0x30

/-- The do-while digit loop of `int2str`: returns the emitted characters
(leftmost first) and the residual width `len`. -/
def int2strLoop (ff : Nat) : Nat → Nat → Int → Int → List Nat → List Nat × Int
  | 0, _, _, len, acc => (acc, len)   -- fuel exhausted (unreachable for reachable arguments)
  | fuel + 1, val, dot, len, acc =>
    let ch := int2strDigit ff val
    let val' := if ffBit ff FORM_HEX then val / 16 else val / 10
    let dot' := if dot ≥ 0 then dot - 1 else dot
    let acc' := if dot ≥ 0 ∧ dot' = 0 then (0x2e : Nat) :: ch :: acc else ch :: acc
    if len > 0 ∧ len - 1 = 0 then (acc', 0)
    else
      let len' := if len > 0 then len - 1 else len
      if dot' < 0 ∧ val' = 0 then (acc', len')
      else int2strLoop ff fuel val' dot' len' acc'

/-- `int2str para ff len` as a character list (`List Nat`). -/
def int2str (para : Int) (ff₀ : Nat) (len₀ : Int) : List Nat :=
  let ff := ff₀   -- PRINT_HEX_STYLE = 0: no forced lower case
  let (ff, len) :=
    if len₀ < 0 then (if ffBit ff₀ FORM_ZERO then ff₀ else ff₀ + FORM_ZERO, -len₀)
    else (ff, len₀)
  let dot := Int.tdiv len 100
  let len := Int.tmod len 100
  let len := if len > 10 then 10 else len
  let dot := if dot = 0 then -1 else dot
  let (fx, flag, val) :=
    -- `(ff & FORM_FHEX) != FORM_HEX`: the hex flag alone suppresses the sign
    if para < 0 ∧ ¬ (ffBit ff FORM_HEX ∧ ¬ ffBit ff FORM_FLAG) then
      (true, 0x2d, toU16 (-para))
    else
      if ffBit ff FORM_PLUS then (true, 0x2b, toU16 para) else (false, 0x20, toU16 para)
  let (digits, len) := int2strLoop ff 400 val dot len []
  if ffBit ff FORM_FLAG then
    let pad := List.replicate len.toNat (ASCII_SP + (if ffBit ff FORM_ZERO then FORM_ZERO else 0))
    flag :: pad ++ digits
  else if ffBit ff FORM_ZERO then
    if len = 0 ∧ fx then flag :: digits
    else if len > 0 then
      (if fx then flag :: List.replicate (len.toNat - 1) 0x30
       else List.replicate len.toNat 0x30) ++ digits
    else digits
  else
    if fx then
      let len' := if len > 0 then len - 1 else len
      List.replicate len'.toNat 0x20 ++ flag :: digits
    else
      List.replicate len.toNat 0x20 ++ digits

end NanoBasic

namespace NanoBasic

/-! ### Interpreter state

The C globals of `nano_basic_uno.cpp` in one structure.  `executionPointer`
may point into the REPL code buffer (`internalcodeBuff`) or the program
area, hence pointers are a buffer tag plus an index.  External
collaborators (console, GPIO/ADC/PWM, tick, random source, EEPROM) are
oracle fields. -/

/-- Which buffer a bytecode pointer addresses. -/
inductive Mem
  | repl
  | prog
  deriving DecidableEq, Repr

/-- A bytecode pointer (`uint8_t*` into `internalcodeBuff` or `programArea`). -/
structure Ptr where
  mem : Mem
  idx : Nat
  deriving DecidableEq, Repr

/-- An `nb_int_t*` target: scalar variable or array slot. -/
inductive VarRef
  | gvar (i : Nat)
  | avar (i : Nat)
  deriving DecidableEq, Repr

/-- A control-stack frame (`stack_t`). -/
structure Frame where
  type : Nat := 0
  returnPointer : Ptr := ⟨.prog, 0⟩
  returnLineNumber : Int := 0
  pvar : VarRef := .gvar 0
  limit : Int := 0
  step : Int := 0
  deriving DecidableEq, Repr

/-- The persistent-store header (`EEP_Header_t`). -/
structure EEPHeader where
  magic1 : Nat := 0
  magic2 : Nat := 0
  verMajor : Nat := 0
  verMinor : Nat := 0
  progLength : Int := 0
  autoRun : Nat := 0
  reserved : Nat := 0
  deriving DecidableEq, Repr

/-- The interpreter's global state. -/
structure St where
  replBuf : List Nat := []
  progArea : List Nat := [0]
  ep : Ptr := ⟨.repl, 0⟩
  lineNumber : Int := 0
  errorCode : Nat := 0
  returnRequest : Nat := 0
  stackPointer : Nat := 0
  stackFrames : Nat → Frame := fun _ => {}  -- stacks[]
  exprDepth : Nat := 0
  vars : Nat → Int := fun _ => 0
  arr : Nat → Int := fun _ => 0
  dataReadPointer : Option Ptr := none
  resumePointer : Option Ptr := none
  resumeLineNumber : Int := 0
  progLength : Int := 0
  output : List Nat := []
  inputQ : List Int := []
  pendingLines : List (List Nat) := []
  eepHeader : EEPHeader := {}
  eepProg : List Nat := []
  randSeed : Int := 0
  randFn : Int → Int := fun _ => 0
  gpioWriteFn : Int → Int → Int := fun _ _ => 0
  gpioReadFn : Int → Int := fun _ => 0
  adcReadFn : Int → Int := fun _ => 0
  pwmSetFn : Int → Int → Int := fun _ _ => 0
  tickSeq : Nat → Int := fun _ => 0
  tickIdx : Nat := 0
  halted : Bool := false
  fuelOk : Bool := true

/-- The buffer a `Mem` tag denotes. -/
def St.buf (s : St) : Mem → List Nat
  | .repl => s.replBuf
  | .prog => s.progArea

/-- Dereference a bytecode pointer. -/
def St.byte (s : St) (p : Ptr) : Nat := byteAt (s.buf p.mem) p.idx

/-- `*executionPointer`. -/
def St.cur (s : St) : Nat := s.byte s.ep

/-- `executionPointer += k`. -/
def St.adv (s : St) (k : Nat) : St := {s with ep := ⟨s.ep.mem, s.ep.idx + k⟩}

/-- `executionPointer -= k`. -/
def St.rew (s : St) (k : Nat) : St := {s with ep := ⟨s.ep.mem, s.ep.idx - k⟩}

/-- Read through an `nb_int_t*`. -/
def St.rdVar (s : St) : VarRef → Int
  | .gvar i => s.vars i
  | .avar i => s.arr i

/-- Write through an `nb_int_t*`. -/
def St.wrVar (s : St) (r : VarRef) (v : Int) : St :=
  match r with
  | .gvar i => {s with vars := fun j => if j = i then v else s.vars j}
  | .avar i => {s with arr := fun j => if j = i then v else s.arr j}

/-- Update the control-stack slot `i`. -/
def St.setFrame (s : St) (i : Nat) (f : Frame → Frame) : St :=
  {s with stackFrames := fun j => if j = i then f (s.stackFrames j) else s.stackFrames j}

/-- `printChar`. -/
def St.putc (s : St) (c : Nat) : St := {s with output := s.output ++ [c % 256]}

/-- `printString` on a byte list. -/
def St.puts (s : St) (l : List Nat) : St := {s with output := s.output ++ l.map (· % 256)}

/-- Bytes of a Lean string literal (all our literals are ASCII). -/
def strB (s : String) : List Nat := s.toList.map Char.toNat

/-- `printNewline` — the source emits LF then CR. -/
def printNewline (s : St) : St := (s.putc 0x0a).putc 0x0d

/-- `printVal`. -/
def printVal (v : Int) (s : St) : St := s.puts (int2str v 0 0)

/-- `bios_getSystemTick` modelled by an oracle sequence. -/
def getTick (s : St) : Int × St := (s.tickSeq s.tickIdx, {s with tickIdx := s.tickIdx + 1})

/-- `inputChar` (`bios_consoleGetChar`): pop the console queue, `-1` when empty. -/
def inputChar (s : St) : Int × St :=
  match s.inputQ with
  | [] => (-1, s)
  | c :: rest => (c, {s with inputQ := rest})

/-- `executeBreak`. -/
def executeBreak (s : St) : St :=
  let s :=
    if s.lineNumber ≠ 0 then
      {s with resumePointer := some s.ep, resumeLineNumber := s.lineNumber}
    else s
  {s with errorCode := ERROR_BREAK}

/-- `checkBreakKey`. -/
def checkBreakKey (s : St) : Int × St :=
  let (ch, s) := inputChar s
  if ch < 0 then (0, s)
  else if ch = CHR_BREAK then (-1, executeBreak s)
  else (ch, s)

/-- `errorSting` table. -/
def errorSting (e : Nat) : List Nat :=
  List.getD [strB "", strB "Syntax", strB "Division by 0", strB "Array index over",
    strB "Parameter", strB "Stack overflow", strB "Can't resume", strB "Label not found",
    strB "Not in run-mode", strB "PG area overflow", strB "PG empty", strB "Loop nothing",
    strB "Endif not found", strB "Expr too deep", strB "Next", strB "Return",
    strB "Loop", strB "Exit", strB "Continue", strB "Read"] e []

/-- `printError`. -/
def printError (s : St) : St :=
  let s :=
    if s.errorCode ≠ ERROR_NONE then
      let s :=
        if s.errorCode = ERROR_BREAK then s.puts (strB "\r\nBreak")
        else
          let s := printNewline s
          let s := if s.errorCode ≥ ERROR_UXNEXT then s.puts (strB "Unexpected ") else s
          let s := if s.errorCode > ERROR_CODE_MAX then {s with errorCode := ERROR_SYNTAX} else s
          (s.puts (errorSting s.errorCode)).puts (strB " error")
      if s.lineNumber ≠ 0 then printVal s.lineNumber (s.puts (strB " in ")) else s
    else s
  printNewline s

/-- `pushStack`: on success returns the frame slot written (`prevsp`). -/
def pushStack (st : Nat) (s : St) : Option Nat × St :=
  if s.stackPointer ≥ STACK_NUM then
    (none, {s with errorCode := ERROR_STACK})
  else
    let i := s.stackPointer
    let s := s.setFrame i fun f =>
      {f with type := st, returnPointer := s.ep, returnLineNumber := s.lineNumber}
    (some i, {s with stackPointer := i + 1})

/-- `popStack`: always decrements a non-empty stack; `none` on empty stack
or on a kind mismatch (the slot content is returned on a match). -/
def popStack (st : Nat) (s : St) : Option Frame × St :=
  if s.stackPointer = 0 then
    (none, s)
  else
    let s := {s with stackPointer := s.stackPointer - 1}
    let fr := s.stackFrames s.stackPointer
    if fr.type ≠ st then (none, s) else (some fr, s)

/-- `isDelimiter`. -/
def isDelimiter (ch : Nat) : Bool :=
  ch == 0x3a || ch == ST_EOL || ch == ST_ELSE || ch == ST_ELSEIF || ch == ST_ENDIF ||
    ch == ST_COMMENT

/-- `checkDelimiter`. -/
def checkDelimiter (s : St) : St :=
  if s.errorCode = ERROR_NONE ∧ ¬ isDelimiter s.cur then
    {s with errorCode := ERROR_SYNTAX}
  else s

/-- `checkST`: consume one expected byte (only acts when no error is pending). -/
def checkST (ch : Nat) (s : St) : St :=
  if s.errorCode = ERROR_NONE then
    if s.cur ≠ ch then {s.adv 1 with errorCode := ERROR_SYNTAX} else s.adv 1
  else s

/-- `checkDivZero`. -/
def checkDivZero (val : Int) (s : St) : St :=
  if s.errorCode = ERROR_NONE ∧ val = 0 then
    {s with errorCode := ERROR_DIVZERO}
  else s

/-- `programInit`. -/
def programInit (s : St) : St :=
  {s with stackPointer := 0, resumePointer := none, resumeLineNumber := 0,
          dataReadPointer := none}

/-- `programNew` (the C writes one EOL byte at the area top; stale bytes
beyond it are never read by the operations modelled here). -/
def programNew (s : St) : St := {s with progLength := 0, progArea := [ST_EOL]}

/-- `initializeValiables`. -/
def initializeValiables (s : St) : St :=
  {programInit s with vars := fun _ => 0, arr := fun _ => 0}

/-- `programRun`. -/
def programRun (s : St) : St :=
  {initializeValiables s with errorCode := ERROR_NONE, lineNumber := 1, ep := ⟨.prog, 0⟩, returnRequest := REQUEST_GOTO}

/-- `hex2byte`. -/
def hex2byte (ch : Nat) : Nat :=
  if 0x30 ≤ ch ∧ ch ≤ 0x39 then ch - 0x30
  else if 0x41 ≤ ch ∧ ch ≤ 0x46 then ch - 0x41 + 10
  else if 0x61 ≤ ch ∧ ch ≤ 0x66 then ch - 0x61 + 10
  else 0x10

/-- The wait loop of `inkey_func`, with fuel. -/
def inkey_wait : Nat → Int → Int → St → Int × St
  | 0, _, _, s => (-1, {s with fuelOk := false})
  | fuel + 1, val, waitStart, s =>
    let (ch, s) := checkBreakKey s
    if ch ≠ 0 then (ch, s)
    else
      let (t, s) := getTick s
      let elapsed := wrap16 (t - waitStart)
      if val ≠ 0 ∧ elapsed > val then (-1, s)
      else inkey_wait fuel val waitStart s

/-- `inkey_func`: busy-wait on console and tick. -/
def inkey_func (fuel : Nat) (val : Int) (s : St) : Int × St :=
  let val := if val < 0 then 0 else val
  let (waitStart, s) := getTick s
  inkey_wait fuel val waitStart s

/-- The wait loop of `delayMs`, with fuel. -/
def delay_wait : Nat → Int → Int → St → St
  | 0, _, _, s => {s with fuelOk := false}
  | fuel + 1, val, waitStart, s =>
    let (bk, s) := checkBreakKey s
    if bk < 0 then s
    else
      let (t, s) := getTick s
      let elapsed := wrap16 (t - waitStart)
      if elapsed > val then s
      else delay_wait fuel val waitStart s

/-- `delayMs`: busy-wait on the tick, polling for break. -/
def delayMs (fuel : Nat) (val : Int) (s : St) : St :=
  let (waitStart, s) := getTick s
  delay_wait fuel val waitStart s

/-! ### Expression evaluator

`expr` / `expr2nd` / `expr3nd` / `expr4th` / `calcValue` / `calcValueFunc`
are mutually recursive; they are rendered as one fuel-indexed function
`evalE` over a call tag (each C function = an entry tag, its `while` loop
= a loop tag carrying the accumulator), with named wrappers below.
`getArrayReference` is inlined in the `ST_ARRAY` leaf exactly as the C
calls it. -/

/-- Call tags for the evaluator: entry point or loop-with-accumulator of
each of the four levels, the leaf parser, and `calcValueFunc`. -/
inductive ECall
  | exprE
  | exprL (acc : Int)
  | expr2 (acc : Int := 0)
  | expr2L (acc : Int)
  | expr3
  | expr3L (acc : Int)
  | expr4
  | expr4L (acc : Int)
  | calcV
  | calcF

/-- The evaluator.  Every C-level call or loop iteration consumes one unit
of fuel; exhaustion clears `fuelOk` (never reached in the runs below). -/
def evalE : Nat → ECall → St → Int × St
  | 0, _, s => (-1, {s with fuelOk := false})
  | n + 1, c, s =>
    match c with
    | .exprE =>
      let (acc, s) := evalE n (.expr2 0) s
      if s.errorCode ≠ ERROR_NONE then (-1, s) else evalE n (.exprL acc) s
    | .exprL acc =>
      let ch := s.cur
      let s := s.adv 1
      if ch = 0x26 then        -- '&'
        if s.cur ≠ ch then
          let (v, s) := evalE n (.expr2 0) s
          let acc := band16 acc v
          if s.errorCode ≠ ERROR_NONE then (-1, s) else evalE n (.exprL acc) s
        else
          let s := s.adv 1
          -- C: `acc = !!acc && !!expr2nd();` — the C `&&` short-circuits:
          -- when `acc` is zero, `expr2nd` is not called at all.
          if acc = 0 then
            if s.errorCode ≠ ERROR_NONE then (-1, s) else evalE n (.exprL 0) s
          else
            let (v, s) := evalE n (.expr2 0) s
            let acc : Int := if v ≠ 0 then 1 else 0
            if s.errorCode ≠ ERROR_NONE then (-1, s) else evalE n (.exprL acc) s
      else if ch = 0x7c then   -- '|'
        if s.cur ≠ ch then
          let (v, s) := evalE n (.expr2 0) s
          let acc := bor16 acc v
          if s.errorCode ≠ ERROR_NONE then (-1, s) else evalE n (.exprL acc) s
        else
          let s := s.adv 1
          -- C: `acc = !!acc || !!expr2nd();` — short-circuits when `acc ≠ 0`.
          if acc ≠ 0 then
            if s.errorCode ≠ ERROR_NONE then (-1, s) else evalE n (.exprL 1) s
          else
            let (v, s) := evalE n (.expr2 0) s
            let acc : Int := if v ≠ 0 then 1 else 0
            if s.errorCode ≠ ERROR_NONE then (-1, s) else evalE n (.exprL acc) s
      else if ch = 0x5e then   -- '^'
        let (v, s) := evalE n (.expr2 0) s
        let acc := bxor16 acc v
        if s.errorCode ≠ ERROR_NONE then (-1, s) else evalE n (.exprL acc) s
      else
        (acc, s.rew 1)
    | .expr2 _ =>
      let (acc, s) := evalE n .expr3 s
      if s.errorCode ≠ ERROR_NONE then (-1, s) else evalE n (.expr2L acc) s
    | .expr2L acc =>
      let ch := s.cur
      let s := s.adv 1
      if ch = 0x3e then        -- '>'
        let ch2 := s.cur
        let s := s.adv 1
        if ch2 = 0x3d then
          let (tmp, s) := evalE n .expr3 s
          let acc : Int := if acc ≥ tmp then 1 else 0
          if s.errorCode ≠ ERROR_NONE then (-1, s) else evalE n (.expr2L acc) s
        else if ch2 = ch then
          let (tmp, s) := evalE n .expr3 s
          let acc := shr16 acc tmp
          if s.errorCode ≠ ERROR_NONE then (-1, s) else evalE n (.expr2L acc) s
        else
          let s := s.rew 1
          let (tmp, s) := evalE n .expr3 s
          let acc : Int := if acc > tmp then 1 else 0
          if s.errorCode ≠ ERROR_NONE then (-1, s) else evalE n (.expr2L acc) s
      else if ch = 0x3c then   -- '<'
        let ch2 := s.cur
        let s := s.adv 1
        if ch2 = 0x3d then
          let (tmp, s) := evalE n .expr3 s
          let acc : Int := if acc ≤ tmp then 1 else 0
          if s.errorCode ≠ ERROR_NONE then (-1, s) else evalE n (.expr2L acc) s
        else if ch2 = 0x3e then
          let (tmp, s) := evalE n .expr3 s
          let acc : Int := if acc ≠ tmp then 1 else 0
          if s.errorCode ≠ ERROR_NONE then (-1, s) else evalE n (.expr2L acc) s
        else if ch2 = ch then
          let (tmp, s) := evalE n .expr3 s
          let acc := shl16 acc tmp
          if s.errorCode ≠ ERROR_NONE then (-1, s) else evalE n (.expr2L acc) s
        else
          let s := s.rew 1
          let (tmp, s) := evalE n .expr3 s
          let acc : Int := if acc < tmp then 1 else 0
          if s.errorCode ≠ ERROR_NONE then (-1, s) else evalE n (.expr2L acc) s
      else if ch = 0x3d then   -- '=' or '=='
        let s := if s.cur = ch then s.adv 1 else s
        let (tmp, s) := evalE n .expr3 s
        let acc : Int := if acc = tmp then 1 else 0
        if s.errorCode ≠ ERROR_NONE then (-1, s) else evalE n (.expr2L acc) s
      else if ch = 0x21 ∧ s.cur = 0x3d then  -- '!='
        let s := s.adv 1
        let (tmp, s) := evalE n .expr3 s
        let acc : Int := if acc ≠ tmp then 1 else 0
        if s.errorCode ≠ ERROR_NONE then (-1, s) else evalE n (.expr2L acc) s
      else
        (acc, s.rew 1)
    | .expr3 =>
      let (acc, s) := evalE n .expr4 s
      if s.errorCode ≠ ERROR_NONE then (-1, s) else evalE n (.expr3L acc) s
    | .expr3L acc =>
      let ch := s.cur
      let s := s.adv 1
      if ch = 0x2b then        -- '+'
        let (v, s) := evalE n .expr4 s
        let acc := wrap16 (acc + v)
        if s.errorCode ≠ ERROR_NONE then (-1, s) else evalE n (.expr3L acc) s
      else if ch = 0x2d then   -- '-'
        let (v, s) := evalE n .expr4 s
        let acc := wrap16 (acc - v)
        if s.errorCode ≠ ERROR_NONE then (-1, s) else evalE n (.expr3L acc) s
      else
        (acc, s.rew 1)
    | .expr4 =>
      let (acc, s) := evalE n .calcV s
      if s.errorCode ≠ ERROR_NONE then (-1, s) else evalE n (.expr4L acc) s
    | .expr4L acc =>
      let ch := s.cur
      let s := s.adv 1
      if ch = 0x2a then        -- '*'
        let (v, s) := evalE n .calcV s
        let acc := wrap16 (acc * v)
        if s.errorCode ≠ ERROR_NONE then (-1, s) else evalE n (.expr4L acc) s
      else if ch = 0x2f then   -- '/'
        let (v, s) := evalE n .calcV s
        let s := checkDivZero v s
        -- `if (!checkDivZero(val)) acc = acc / val;` — the accumulator is
        -- not written when the guard fires.
        let acc := if s.errorCode = ERROR_NONE then cdiv acc v else acc
        if s.errorCode ≠ ERROR_NONE then (-1, s) else evalE n (.expr4L acc) s
      else if ch = 0x25 then   -- '%'
        let (v, s) := evalE n .calcV s
        let s := checkDivZero v s
        let acc := if s.errorCode = ERROR_NONE then cmod acc v else acc
        if s.errorCode ≠ ERROR_NONE then (-1, s) else evalE n (.expr4L acc) s
      else
        (acc, s.rew 1)
    | .calcV =>
      -- `if (++exprDepth > EXPR_DEPTH_MAX)` — `exprDepth` is a `uint8_t`.
      let s := {s with exprDepth := (s.exprDepth + 1) % 256}
      if s.exprDepth > EXPR_DEPTH_MAX then
        (-1, {s with errorCode := ERROR_TOODEEP})
      else
        match get_dec_val (s.buf s.ep.mem) s.ep.idx with
        | some (v, j) => (v, {s with ep := ⟨s.ep.mem, j⟩})
        | none =>
          let ch := s.cur
          let s := s.adv 1
          if 0x41 ≤ ch ∧ ch ≤ 0x5a then
            (s.vars (ch - 0x41), s)
          else if ch = ST_ARRAY then
            -- getArrayReference, then `return *pvar`
            let s := checkST 0x5b s
            if s.errorCode ≠ ERROR_NONE then (-1, s)
            else
              let (index, s) := evalE n .exprE s
              if s.errorCode ≠ ERROR_NONE then (-1, s)
              else if index < 0 ∨ index ≥ (ARRAY_INDEX_NUM : Int) then
                (-1, {s with errorCode := ERROR_ARRAY})
              else
                let s := checkST 0x5d s
                if s.errorCode ≠ ERROR_NONE then (-1, s) else (s.arr index.toNat, s)
          else if ch = 0x28 then   -- '('
            let (v, s) := evalE n .exprE s
            let s := checkST 0x29 s
            if s.errorCode ≠ ERROR_NONE then (-1, s) else (v, s)
          else if ch = 0x2d then   -- unary '-'
            let (v, s) := evalE n .calcV s
            (wrap16 (-v), s)
          else if ch = 0x21 then   -- '!'
            let (v, s) := evalE n .calcV s
            ((if v = 0 then 1 else 0 : Int), s)
          else if ch = 0x7e then   -- '~'
            let (v, s) := evalE n .calcV s
            (bnot16 v, s)
          else if ch = FUNC_RND then
            let (v, s) := evalE n .calcF s
            if s.errorCode = ERROR_NONE then (wrap16 (s.randFn v), s) else (-1, s)
          else if ch = FUNC_ABS then
            let (v, s) := evalE n .calcF s
            if s.errorCode = ERROR_NONE then ((if v < 0 then -v else v), s) else (-1, s)
          else if ch = FUNC_INP then
            let (v, s) := evalE n .calcF s
            if s.errorCode = ERROR_NONE then
              let v := s.gpioReadFn v
              if v < 0 then (v, {s with errorCode := ERROR_PARA}) else (v, s)
            else (-1, s)
          else if ch = FUNC_ADC then
            let (v, s) := evalE n .calcF s
            if s.errorCode = ERROR_NONE then
              let v := s.adcReadFn v
              if v < 0 then (v, {s with errorCode := ERROR_PARA}) else (v, s)
            else (-1, s)
          else if ch = FUNC_INKEY then
            let (v, s) := evalE n .calcF s
            if s.errorCode = ERROR_NONE then inkey_func n v s else (-1, s)
          else if ch = SVAR_TICK then
            getTick s
          else
            (-1, {s with errorCode := ERROR_SYNTAX})
    | .calcF =>
      let s := checkST 0x28 s
      if s.errorCode ≠ ERROR_NONE then (-1, s)
      else
        let (v, s) := evalE n .exprE s
        let s := checkST 0x29 s
        if s.errorCode ≠ ERROR_NONE then (-1, s) else (v, s)

/-- `expr` (level 1). -/
def expr (n : Nat) (s : St) : Int × St := evalE n .exprE s

/-- `expr2nd` (level 2). -/
def expr2nd (n : Nat) (s : St) : Int × St := evalE n (.expr2 0) s

/-- `expr3nd` (level 3). -/
def expr3nd (n : Nat) (s : St) : Int × St := evalE n .expr3 s

/-- `expr4th` (level 4). -/
def expr4th (n : Nat) (s : St) : Int × St := evalE n .expr4 s

/-- `calcValue` (leaf). -/
def calcValue (n : Nat) (s : St) : Int × St := evalE n .calcV s

/-- `calcValueFunc`. -/
def calcValueFunc (n : Nat) (s : St) : Int × St := evalE n .calcF s

/-- `getArrayReference` as used by statement handlers (returns the
`nb_int_t*`). -/
def getArrayReference (n : Nat) (s : St) : Option VarRef × St :=
  let s := checkST 0x5b s
  if s.errorCode ≠ ERROR_NONE then (none, s)
  else
    let (index, s) := expr n s
    if s.errorCode ≠ ERROR_NONE then (none, s)
    else if index < 0 ∨ index ≥ (ARRAY_INDEX_NUM : Int) then
      (none, {s with errorCode := ERROR_ARRAY})
    else
      let s := checkST 0x5d s
      if s.errorCode ≠ ERROR_NONE then (none, s) else (some (.avar index.toNat), s)

/-- `getParameterPointer`. -/
def getParameterPointer (n : Nat) (s : St) : Option VarRef × St :=
  let ch := s.cur
  let s := s.adv 1
  if ch = ST_ARRAY then getArrayReference n s
  else if 0x41 ≤ ch ∧ ch ≤ 0x5a then (some (.gvar (ch - 0x41)), s)
  else (none, {s with errorCode := ERROR_SYNTAX})

/-- `get_StringPara_Form`: parse `(e[,w])` and format with `int2str`. -/
def get_StringPara_Form (n : Nat) (fm : Nat) (s : St) : List Nat × St :=
  let s := checkST 0x28 s
  if s.errorCode ≠ ERROR_NONE then ([], s)
  else
    let (val, s) := expr n s
    if s.errorCode ≠ ERROR_NONE then ([], s)
    else
      let (len, s) :=
        if s.cur = 0x2c then
          let s := s.adv 1
          expr n s
        else ((0 : Int), s)
      let s := checkST 0x29 s
      if s.errorCode ≠ ERROR_NONE then ([], s)
      else (int2str val fm len, s)

/-! ### Block scanners (`findST`, `findNextLoop`, `label2exeptr`) -/

/-- `while (*ptr++ != ST_EOL);` — skip to just past the next EOL byte. -/
def skipPastEOL (buf : List Nat) : Nat → Nat → Nat
  | 0, i => i
  | fuel + 1, i => if byteAt buf i = ST_EOL then i + 1 else skipPastEOL buf fuel (i + 1)

/-- The string-skipping loop of `findST`
(`do { ch = *ptr++; if (ch == '\\') ptr++; } while (ch != 0x22 && ch != EOL);`). -/
def skipString (buf : List Nat) : Nat → Nat → Nat
  | 0, i => i
  | fuel + 1, i =>
    let ch := byteAt buf i
    let i := i + 1
    let i := if ch = 0x5c then i + 1 else i
    if ch ≠ ST_STRING ∧ ch ≠ ST_EOL then skipString buf fuel i else i

/-- The scan loop of `findST` over buffer `buf`: from byte index `ptr` with
`IF` depth `count_if` and running line count `num`; returns the index just
past a matched opcode together with the line count there. -/
def findSTGo (buf : List Nat) (stList : List Nat) : Nat → Nat → Nat → Int → Option (Nat × Int)
  | 0, _, _, _ => none
  | fuel + 1, ptr, count_if, num =>
    let ch := byteAt buf ptr
    let ptr := ptr + 1
    if ch = ST_EOL then
      -- end of line: stop in REPL mode or at the program terminator
      if num = 0 then none
      else if byteAt buf ptr = ST_EOL then none
      else findSTGo buf stList fuel (ptr + 1) count_if (num + 1)
    else if ch = ST_COMMENT then
      findSTGo buf stList fuel (skipPastEOL buf fuel ptr) count_if num
    else if ch = ST_STRING then
      findSTGo buf stList fuel (skipString buf fuel ptr) count_if num
    else if ch = ST_IF then
      findSTGo buf stList fuel ptr (count_if + 1) num
    else if ch = ST_ENDIF ∧ count_if ≠ 0 then
      findSTGo buf stList fuel ptr (count_if - 1) num
    else if IS_ST_VAL ch then
      findSTGo buf stList fuel (ptr + GET_VAL_SIZE ch) count_if num
    else if count_if = 0 ∧ stList.contains ch then
      some (ptr, num)
    else
      findSTGo buf stList fuel ptr count_if num

/-- `findST`: scan forward from `executionPointer`; on success the global
`lineNumber` is set to the line of the match. -/
def findST (fuel : Nat) (stList : List Nat) (lnum : Int) (s : St) : Option Ptr × St :=
  match findSTGo (s.buf s.ep.mem) stList fuel s.ep.idx 0 lnum with
  | some (p, num) => (some ⟨s.ep.mem, p⟩, {s with lineNumber := num})
  | none => (none, s)

/-- The iteration of `findNextLoop`, balancing openers against terminators.
Each round assigns `executionPointer` to the scan start (as the C does) and
calls `findST`. -/
def findNextLoopGo (stList : List Nat) : Nat → Nat → Nat → St → Option Nat × St
  | 0, _, _, s => (none, {s with fuelOk := false})
  | fuel + 1, ptr, count, s =>
    let s := {s with ep := ⟨s.ep.mem, ptr⟩}
    let num := s.lineNumber
    match findSTGo (s.buf s.ep.mem) stList fuel ptr 0 num with
    | none => (none, s)
    | some (p, num') =>
      let s := {s with lineNumber := num'}
      let ch := byteAt (s.buf s.ep.mem) (p - 1)
      if stList.head? = some ch then
        let p := if ch = ST_LOOP ∧ byteAt (s.buf s.ep.mem) p = ST_WHILE then p + 1 else p
        if count - 1 = 0 then
          -- loop exit: `lineNumber = num` restores the pre-scan line count
          (some p, {s with lineNumber := num})
        else findNextLoopGo stList fuel p (count - 1) s
      else findNextLoopGo stList fuel p (count + 1) s

/-- `findNextLoop ptr ch`: find the terminator matching the innermost
`FOR`/`DO`/`WHILE` opener. -/
def findNextLoop (fuel : Nat) (ptr : Nat) (ch : Nat) (s : St) : Option Nat × St :=
  let stList := if ch = ST_LOOP then [ST_LOOP, ST_WHILE, ST_DO] else [ST_NEXT, ST_FOR]
  findNextLoopGo stList fuel ptr 1 s

/-- `skipToDelimiter`. -/
def skipToDelimiter (buf : List Nat) : Nat → Nat → Nat
  | 0, i => i
  | fuel + 1, i => if isDelimiter (byteAt buf i) then i else skipToDelimiter buf fuel (i + 1)

/-- Skip the rest of a line value-literal-aware
(`while (*ptr != ST_EOL) ptr = get_next_ptr(ptr); ptr++;` in `label2exeptr`). -/
def skipLineVals (buf : List Nat) : Nat → Nat → Nat
  | 0, i => i
  | fuel + 1, i =>
    if byteAt buf i = ST_EOL then i + 1 else skipLineVals buf fuel (get_next_ptr buf i)

/-- The line scan of `label2exeptr` over the program area. -/
def label2exeptrGo (buf : List Nat) (val : Int) : Nat → Nat → Int → Option (Nat × Nat × Int)
  | 0, _, _ => none
  | fuel + 1, ptr, lnum =>
    let ch := byteAt buf ptr
    let ptr := ptr + 1
    if ch = ST_EOL then none
    else
      match get_dec_val buf ptr with
      | some (dec, p) =>
        if dec = val then some (p, ptr - 1, lnum)
        else label2exeptrGo buf val fuel (skipLineVals buf fuel p) (lnum + 1)
      | none => label2exeptrGo buf val fuel (skipLineVals buf fuel ptr) (lnum + 1)

/-- `label2exeptr`: find the stored line whose label equals `val`; on
success `executionPointer` is set to that line's length byte and
`lineNumber` to its physical position. -/
def label2exeptr (fuel : Nat) (val : Int) (s : St) : Option Nat × St :=
  match label2exeptrGo s.progArea val fuel 0 1 with
  | some (p, lenByte, lnum) => (some p, {s with ep := ⟨.prog, lenByte⟩, lineNumber := lnum})
  | none => (none, s)

/-! ### Tokenizer (`convertInternalCode`)

Raw console characters to internal code.  Emitted opcodes are accumulated
in reverse (`dst--` on sign folding becomes dropping the list head); the
running `len` of the C equals `acc.length + 1` at each loop top. -/

/-- `toupper` on a byte. -/
def toupperB (c : Nat) : Nat := if 0x61 ≤ c ∧ c ≤ 0x7a then c - 0x20 else c

/-- `isupper` on a byte. -/
def isUpperB (c : Nat) : Bool := 0x41 ≤ c && c ≤ 0x5a

/-- `isdigit` on a byte. -/
def isDigitB (c : Nat) : Bool := 0x30 ≤ c && c ≤ 0x39

/-- `isxdigit` on a byte. -/
def isxdigitB (c : Nat) : Bool := hex2byte c < 0x10

/-- `dec2val`: fold decimal digits with 16-bit wrap, returning the rest. -/
def dec2valGo : List Nat → Int → Int × List Nat
  | [], v => (v, [])
  | c :: rest, v =>
    if isDigitB c then dec2valGo rest (wrap16 (v * 10 + ((c : Int) - 0x30)))
    else (v, c :: rest)

/-- `hex2val`: fold hex digits (`v = (v << 4) + ch`) with 16-bit wrap. -/
def hex2valGo : List Nat → Int → Int × List Nat
  | [], v => (v, [])
  | c :: rest, v =>
    if hex2byte c < 0x10 then hex2valGo rest (wrap16 (v * 16 + (hex2byte c : Int)))
    else (v, c :: rest)

/-- The keyword table (`keyWordList`). -/
def keyWordList : List (List Nat) :=
  [strB "Print", strB "Input", strB "Goto", strB "Gosub", strB "Return", strB "For",
   strB "Next", strB "Do", strB "Loop", strB "While", strB "If", strB "Run",
   strB "Resume", strB "Stop", strB "End", strB "New", strB "List", strB "Prog",
   strB "Save", strB "Load", strB "Delay", strB "Pause", strB "Reset", strB "Exit",
   strB "Continue", strB "Randomize", strB "Data", strB "Read", strB "Restore",
   strB "Outp", strB "Pwm", strB "Else", strB "ElseIf", strB "EndIf", strB "Then",
   strB "To", strB "Step", strB "Rnd", strB "Abs", strB "Inp", strB "Adc",
   strB "Inkey", strB "Chr", strB "Dec", strB "Hex", strB "Tick"]

/-- Case-insensitive match of one keyword against the source head; the match
stands only when the keyword is exhausted and the next source character is
not a letter.  Returns the remaining source. -/
def kwMatchOne : List Nat → List Nat → Option (List Nat)
  | [], src => if isUpperB (toupperB (byteAt src 0)) then none else some src
  | k :: ks, src =>
    if toupperB (byteAt src 0) = toupperB k ∧ src ≠ [] then kwMatchOne ks (src.drop 1)
    else none

/-- The keyword search loop: first match in table order wins. -/
def kwSearch : List (List Nat) → Nat → List Nat → Option (Nat × List Nat)
  | [], _, _ => none
  | kw :: rest, index, src =>
    match kwMatchOne kw src with
    | some src' => some (TOKEN_START + index, src')
    | none => kwSearch rest (index + 1) src

/-- The string-copy loop of the tokenizer (after the opening quote). -/
def convStr : Nat → List Nat → List Nat → Nat → Sum Nat (List Nat × List Nat)
  | 0, _, acc, _ => .inr (acc, [])
  | fuel + 1, src, acc, len =>
    match src with
    | [] => .inl ERROR_SYNTAX
    | ch :: rest =>
      let acc := ch :: acc
      let len := len + 1
      if ch = ST_STRING then .inr (acc, rest)
      else
        let (acc, rest, len) :=
          if ch = 0x5c ∧ byteAt rest 0 = ST_STRING then
            (byteAt rest 0 :: acc, rest.drop 1, len + 1)
          else (acc, rest, len)
        if len ≥ CODE_BUFF_SIZE - 3 then .inl ERROR_PGOVER
        else convStr fuel rest acc len

/-- The verbatim-comment copy loop of the tokenizer. -/
def convComment : List Nat → List Nat → Nat → Sum Nat (List Nat × List Nat)
  | [], acc, _ => .inr (acc, [])
  | c :: rest, acc, len =>
    let len := len + 1
    if len ≥ CODE_BUFF_SIZE - 2 then .inl ERROR_PGOVER
    else
      let acc := c :: acc
      if byteAt rest 0 = 0 ∨ rest = [] then .inr (acc, rest)
      else convComment rest acc len

/-- The main tokenizer loop; `.inl` carries the error code, `.inr` the
reversed opcode bytes.  `last_st` is the previous token class. -/
def convertGo : Nat → List Nat → List Nat → Nat → Sum Nat (List Nat)
  | 0, _, acc, _ => .inr acc
  | fuel + 1, src, acc, last_st =>
    let len := acc.length + 1
    if len > CODE_BUFF_SIZE - 2 then .inl ERROR_PGOVER
    else
      match src with
      | [] => .inr acc
      | c0 :: rest =>
        if c0 ≤ ASCII_SP then
          if c0 = 0 then .inr acc else convertGo fuel rest acc last_st
        else
          let ch := toupperB c0
          let cx := toupperB (byteAt rest 0)
          if ch = 0x3f then
            convertGo fuel rest (ST_PRINT :: acc) 0x3f
          else if ch = 0x30 ∧ cx = 0x58 then
            let src2 := rest.drop 1
            if isxdigitB (byteAt src2 0) then
              let (v, src3) := hex2valGo src2 0
              convertGo fuel src3 ((set_dec_val ST_VAL_HEX v).reverse ++ acc) ST_VAL
            else convertGo fuel src2 acc ST_VAL
          else if isDigitB ch then
            let (v, src2) := dec2valGo (c0 :: rest) 0
            if last_st = 0x2d ∨ last_st = 0x2b then
              if last_st = 0x2d ∧ len = 1 then .inl ERROR_SYNTAX
              else
                let v := if last_st = 0x2d then wrap16 (-v) else v
                convertGo fuel src2 ((set_dec_val ST_VAL_DEC v).reverse ++ acc.drop 1) ST_VAL
            else
              convertGo fuel src2 ((set_dec_val ST_VAL_DEC v).reverse ++ acc) ST_VAL
          else if isUpperB ch then
            if ¬ isUpperB cx then convertGo fuel rest (ch :: acc) ch
            else
              match kwSearch keyWordList 0 (c0 :: rest) with
              | none => .inl ERROR_SYNTAX
              | some (tok, src2) => convertGo fuel src2 (tok :: acc) tok
          else if ch = ST_STRING then
            match convStr fuel rest (c0 :: acc) (len + 1) with
            | .inl e => .inl e
            | .inr (acc2, src2) => convertGo fuel src2 acc2 ST_STRING
          else if ch = ST_COMMENT then
            if cx = ST_COMMENT then
              convertGo fuel [] acc ST_COMMENT
            else
              match convComment (c0 :: rest) acc len with
              | .inl e => .inl e
              | .inr (acc2, src2) => convertGo fuel src2 acc2 ST_COMMENT
          else if ch = ST_ARRAY ∧ cx = 0x5b then
            convertGo fuel rest (ch :: acc) ST_ARRAY
          else if IS_VALID_CHR ch then
            let acc := ch :: acc
            let chNew :=
              if (ch = 0x2d ∨ ch = 0x2b) ∧
                  (last_st = 0x29 ∨ last_st = 0x5d ∨ last_st = ST_VAL ∨
                   isUpperB last_st ∨ last_st ≥ FUNC_START) then 0xff
              else ch
            convertGo fuel rest acc chNew
          else .inl ERROR_SYNTAX

/-- `convertInternalCode`: returns `(len, buffer, errorCode)` — `len` is the
value written into the length prefix (0 for an empty line), `buffer` the
complete bytecode line (length byte, opcodes, EOL). -/
def convertInternalCode (src : List Nat) : Nat × List Nat × Nat :=
  match convertGo (src.length + 2) src [] 0 with
  | .inl e => (0, [], e)
  | .inr accRev =>
    let ops := accRev.reverse
    let len := if ops.length + 1 ≤ 1 then 0 else ops.length + 1
    (len, len :: ops ++ [ST_EOL], ERROR_NONE)

/-! ### Statement handlers -/

/-- The escape-processing print loop for string items (`print_escaped`). -/
def print_escaped : Nat → St → St
  | 0, s => {s with fuelOk := false}
  | fuel + 1, s =>
    let ch := s.cur
    if ch = 0 then s
    else if ch = ST_STRING then s.adv 1
    else if ch = 0x5c then
      let e := s.byte ⟨s.ep.mem, s.ep.idx + 1⟩
      let s := s.adv 1    -- now at the escape selector
      if e = 0x61 then print_escaped fuel ((s.putc 0x07).adv 1)
      else if e = 0x62 then print_escaped fuel ((s.putc 0x08).adv 1)
      else if e = 0x66 then print_escaped fuel ((s.putc 0x0c).adv 1)
      else if e = 0x6e then print_escaped fuel ((s.putc 0x0a).adv 1)
      else if e = 0x72 then print_escaped fuel ((s.putc 0x0d).adv 1)
      else if e = 0x74 then print_escaped fuel ((s.putc 0x09).adv 1)
      else if e = 0x76 then print_escaped fuel ((s.putc 0x0b).adv 1)
      else if e = 0x5c ∨ e = 0x27 ∨ e = 0x22 ∨ e = 0x3f then
        print_escaped fuel ((s.putc e).adv 1)
      else if e = 0x78 then
        -- \xHH : up to two hex digits
        let d1 := hex2byte (s.byte ⟨s.ep.mem, s.ep.idx + 1⟩)
        if d1 > 0x0f then print_escaped fuel ((s.putc 0).adv 1)
        else
          let d2 := hex2byte (s.byte ⟨s.ep.mem, s.ep.idx + 2⟩)
          if d2 > 0x0f then print_escaped fuel ((s.putc d1).adv 2)
          else print_escaped fuel ((s.putc (d1 * 16 + d2)).adv 3)
      else if 0x30 ≤ e ∧ e ≤ 0x37 then
        -- \OOO : up to three octal digits
        let o2 := s.byte ⟨s.ep.mem, s.ep.idx + 1⟩
        if 0x30 ≤ o2 ∧ o2 ≤ 0x37 then
          let o3 := s.byte ⟨s.ep.mem, s.ep.idx + 2⟩
          if 0x30 ≤ o3 ∧ o3 ≤ 0x37 then
            print_escaped fuel ((s.putc ((e - 0x30) * 64 + (o2 - 0x30) * 8 + (o3 - 0x30))).adv 3)
          else print_escaped fuel ((s.putc ((e - 0x30) * 8 + (o2 - 0x30))).adv 2)
        else print_escaped fuel ((s.putc (e - 0x30)).adv 1)
      else
        -- unknown escape: the character itself (nothing when it is NUL)
        if e = 0 then print_escaped fuel (s.adv 1)
        else print_escaped fuel ((s.putc e).adv 1)
    else
      print_escaped fuel ((s.putc ch).adv 1)

/-- The item loop of `proc_print`. -/
def proc_printGo : Nat → Bool → Nat → St → St
  | 0, _, _, s => {s with fuelOk := false}
  | fuel + 1, exp_flag, lastChar, s =>
    if isDelimiter s.cur then
      if lastChar ≠ 0x3b ∧ lastChar ≠ 0x2c then printNewline s else s
    else
      let ch := s.cur
      let s := s.adv 1
      if ch = ST_STRING then
        proc_printGo fuel false ch (print_escaped fuel s)
      else if ch = 0x3b then
        proc_printGo fuel false ch s
      else if ch = 0x2c then
        proc_printGo fuel false ch (s.putc 0x09)
      else if ch = FUNC_CHR then
        let (val, s) := calcValueFunc fuel s
        if s.errorCode ≠ ERROR_NONE then s
        else
          let s := if val ≥ 0x100 then s.putc (toU16 val / 256) else s
          proc_printGo fuel false ch (s.putc (toU16 val % 256))
      else if ch = FUNC_HEX then
        let (p, s) := get_StringPara_Form fuel FORM_HEX s
        let s := if s.errorCode = ERROR_NONE then s.puts p else s
        proc_printGo fuel false ch s
      else if ch = FUNC_DEC then
        let (p, s) := get_StringPara_Form fuel FORM_DEC s
        let s := if s.errorCode = ERROR_NONE then s.puts p else s
        proc_printGo fuel false ch s
      else
        if exp_flag then {s with errorCode := ERROR_SYNTAX}
        else
          let s := s.rew 1
          let (val, s) := expr fuel s
          if s.errorCode ≠ ERROR_NONE then s
          else proc_printGo fuel true ch (printVal val s)

/-- `proc_print`. -/
def proc_print (n : Nat) (s : St) : St := proc_printGo n false 0 s

/-- `str2val` leading-whitespace skip (a NUL ends the string). -/
def str2valSkip : List Nat → List Nat
  | [] => []
  | c :: rest => if c = 0 then [] else if c ≤ ASCII_SP then str2valSkip rest else c :: rest

/-- `str2val`: parse a signed decimal (or `0x` hex) integer. -/
def str2val (l : List Nat) : Int :=
  match str2valSkip l with
  | [] => 0
  | c :: rest =>
    let (neg, l') := if c = 0x2d then (true, rest) else (false, c :: rest)
    let val :=
      match l' with
      | [] => 0
      | d :: ds =>
        if d = 0x30 ∧ (byteAt ds 0 = 0x58 ∨ byteAt ds 0 = 0x78) then
          (hex2valGo (ds.drop 1) 0).1
        else (dec2valGo (d :: ds) 0).1
    if neg then wrap16 (-val) else val

/-- `inputString`: the line editor is a host collaborator; it yields the
next pending console line (empty when none is available). -/
def inputString (s : St) : List Nat × St :=
  match s.pendingLines with
  | [] => ([], s)
  | l :: rest => (l, {s with pendingLines := rest})

/-- `proc_input`. -/
def proc_input (n : Nat) (s : St) : St :=
  let (pvar, s) := getParameterPointer n s
  match pvar with
  | none => s
  | some r =>
    let s := checkDelimiter s
    if s.errorCode ≠ ERROR_NONE then s
    else
      let (l, s) := inputString s
      if l.length > 0 then s.wrVar r (str2val l) else s

/-- `goto_sub`: evaluate the label expression and jump; returns the
pre-jump `executionPointer` (the GOSUB return point). -/
def goto_sub (n : Nat) (s : St) : Option Ptr × St :=
  let (val, s) := expr n s
  let s := checkDelimiter s
  if s.errorCode ≠ ERROR_NONE then (none, s)
  else
    let rptr := s.ep
    match label2exeptr n val s with
    | (none, s) => (none, {s with errorCode := ERROR_LABEL})
    | (some _, s) => (some rptr, {s with returnRequest := REQUEST_GOTO})

/-- `proc_goto`. -/
def proc_goto (n : Nat) (s : St) : St := (goto_sub n s).2

/-- `proc_gosub`: push the frame, jump, and pop the frame again if the
jump failed. -/
def proc_gosub (n : Nat) (s : St) : St :=
  match pushStack ST_GOSUB s with
  | (none, s) => s
  | (some i, s) =>
    let (rptr, s) := goto_sub n s
    let s := s.setFrame i fun f => {f with returnPointer := rptr.getD ⟨.prog, 0⟩}
    if s.errorCode ≠ ERROR_NONE then {s with stackPointer := s.stackPointer - 1} else s

/-- The frame-popping loop of `proc_return` (argument = current depth). -/
def proc_returnLoop (s : St) : Nat → St
  | 0 => {s with stackPointer := 0, errorCode := ERROR_UXRETURN}
  | k + 1 =>
    let fr := s.stackFrames k
    if fr.type = ST_GOSUB then
      {s with stackPointer := k, ep := fr.returnPointer, lineNumber := fr.returnLineNumber}
    else proc_returnLoop s k

/-- `proc_return`: pop frames until a `GOSUB` frame is found. -/
def proc_return (s : St) : St :=
  let s := checkDelimiter s
  if s.errorCode ≠ ERROR_NONE then s else proc_returnLoop s s.stackPointer

/-- `proc_for`. -/
def proc_for (n : Nat) (s : St) : St :=
  let (pvar, s) := getParameterPointer n s
  match pvar with
  | none => s
  | some r =>
    let s := checkST 0x3d s
    if s.errorCode ≠ ERROR_NONE then s
    else
      let (fromv, s) := expr n s
      let s := checkST ST_TO s
      if s.errorCode ≠ ERROR_NONE then s
      else
        let (tov, s) := expr n s
        if s.errorCode ≠ ERROR_NONE then s
        else
          let ch := s.cur
          let s := s.adv 1
          let (stepv, s, bad) :=
            if ch = ST_STEP then
              let (v, s) := expr n s
              (v, s, s.errorCode ≠ ERROR_NONE)
            else ((1 : Int), s.rew 1, false)
          if bad then s
          else
            match pushStack ST_FOR s with
            | (none, s) => s
            | (some i, s) =>
              let s := s.wrVar r fromv
              s.setFrame i fun f => {f with pvar := r, limit := tov, step := stepv}

/-- `proc_next`. -/
def proc_next (s : St) : St :=
  let s := checkDelimiter s
  if s.errorCode ≠ ERROR_NONE then s
  else
    match popStack ST_FOR s with
    | (none, s) => {s with errorCode := ERROR_UXNEXT}
    | (some fr, s) =>
      if fr.limit = s.rdVar fr.pvar then s
      else
        let s := s.wrVar fr.pvar (wrap16 (s.rdVar fr.pvar + fr.step))
        if fr.step > 0 ∧ fr.limit < s.rdVar fr.pvar then s
        else if ¬ fr.step > 0 ∧ fr.limit > s.rdVar fr.pvar then s
        else
          {s with stackPointer := s.stackPointer + 1, ep := fr.returnPointer,
                  lineNumber := fr.returnLineNumber}

/-- `proc_do`. -/
def proc_do (s : St) : St :=
  let s := checkDelimiter s
  if s.errorCode ≠ ERROR_NONE then s
  else
    match pushStack ST_DO s with
    | (none, s) => s
    | (some i, s) => s.setFrame i fun f => {f with returnPointer := ⟨s.ep.mem, s.ep.idx - 1⟩}

/-- `proc_loop`. -/
def proc_loop (n : Nat) (s : St) : St :=
  match popStack ST_DO s with
  | (none, s) => {s with errorCode := ERROR_UXLOOP}
  | (some fr, s) =>
    if s.cur = ST_WHILE then
      let s := s.adv 1
      let (val, s) := expr n s
      let s := checkDelimiter s
      if s.errorCode ≠ ERROR_NONE then s
      else if val = 0 then s
      else {s with ep := fr.returnPointer, lineNumber := fr.returnLineNumber}
    else
      let s := checkDelimiter s
      if s.errorCode ≠ ERROR_NONE then s
      else {s with ep := fr.returnPointer, lineNumber := fr.returnLineNumber}

/-- `proc_while`. -/
def proc_while (n : Nat) (s : St) : St :=
  let ptr := s.ep.idx
  let (val, s) := expr n s
  let s := checkDelimiter s
  if s.errorCode ≠ ERROR_NONE then s
  else if val ≠ 0 then
    match pushStack ST_DO s with
    | (none, s) => s
    | (some i, s) => s.setFrame i fun f => {f with returnPointer := ⟨s.ep.mem, ptr - 1⟩}
  else
    match findNextLoop n ptr ST_LOOP s with
    | (none, s) => {s with errorCode := ERROR_NOLOOP}
    | (some p, s) => {s with ep := ⟨s.ep.mem, skipToDelimiter (s.buf s.ep.mem) n p⟩}

/-- `proc_exit`. -/
def proc_exit (n : Nat) (s : St) : St :=
  let s := checkDelimiter s
  if s.errorCode ≠ ERROR_NONE then s
  else
    let (ptr, s) :=
      if s.stackPointer ≠ 0 then
        let fr := s.stackFrames (s.stackPointer - 1)
        if fr.type = ST_DO then findNextLoop n s.ep.idx ST_LOOP s
        else if fr.type = ST_FOR then findNextLoop n s.ep.idx ST_NEXT s
        else (none, s)
      else (none, s)
    match ptr with
    | some p =>
      {s with stackPointer := s.stackPointer - 1,
              ep := ⟨s.ep.mem, skipToDelimiter (s.buf s.ep.mem) n p⟩}
    | none => {s with errorCode := ERROR_UXEXIT}

/-- `proc_continue`. -/
def proc_continue (n : Nat) (s : St) : St :=
  let s := checkDelimiter s
  if s.errorCode ≠ ERROR_NONE then s
  else
    if s.stackPointer ≠ 0 then
      let fr := s.stackFrames (s.stackPointer - 1)
      if fr.type = ST_DO then
        {s with stackPointer := s.stackPointer - 1, ep := fr.returnPointer,
                lineNumber := fr.returnLineNumber}
      else if fr.type = ST_FOR then
        match findNextLoop n s.ep.idx ST_NEXT s with
        | (some _, s) => s
        | (none, s) => {s with errorCode := ERROR_UXCONTINUE}
      else {s with errorCode := ERROR_UXCONTINUE}
    else {s with errorCode := ERROR_UXCONTINUE}

/-- `proc_run`. -/
def proc_run (s : St) : St :=
  let s := checkDelimiter s
  if s.errorCode ≠ ERROR_NONE then s else programRun s

/-- `proc_resume`. -/
def proc_resume (s : St) : St :=
  let s := checkDelimiter s
  if s.errorCode ≠ ERROR_NONE then s
  else
    match s.resumePointer with
    | none => {s with errorCode := ERROR_RESUME}
    | some rp => {s with ep := rp, lineNumber := s.resumeLineNumber}

/-- `proc_stop`. -/
def proc_stop (s : St) : St :=
  let s := checkDelimiter s
  if s.errorCode ≠ ERROR_NONE then s else executeBreak s

/-- `proc_end`. -/
def proc_end (s : St) : St :=
  let s := checkDelimiter s
  if s.errorCode ≠ ERROR_NONE then s
  else programInit {s with returnRequest := REQUEST_END}

/-- `proc_new`. -/
def proc_new (s : St) : St :=
  let s := checkDelimiter s
  if s.errorCode ≠ ERROR_NONE then s else programNew (initializeValiables s)

/-- The string echo of `proc_list`. -/
def listString : Nat → Nat → St → Nat × St
  | 0, i, s => (i, {s with fuelOk := false})
  | fuel + 1, i, s =>
    let ch := byteAt s.progArea i
    let s := s.putc ch
    let (i, s) :=
      if ch = 0x5c then (i + 2, s.putc (byteAt s.progArea (i + 1))) else (i + 1, s)
    if ch ≠ ST_STRING then listString fuel i s else (i, s)

/-- The comment echo of `proc_list`. -/
def listComment : Nat → Nat → St → Nat × St
  | 0, i, s => (i, {s with fuelOk := false})
  | fuel + 1, i, s =>
    if byteAt s.progArea i = ST_EOL then (i, s)
    else listComment fuel (i + 1) (s.putc (byteAt s.progArea i))

/-- The byte loop of `proc_list` over one stored line (LIST_STYLE = 0:
keywords print in upper case). -/
def proc_listLine : Nat → Bool → Nat → St → Nat × St
  | 0, _, i, s => (i, {s with fuelOk := false})
  | fuel + 1, flag, ptr, s =>
    let ch := byteAt s.progArea ptr
    match get_dec_val s.progArea ptr with
    | some (val, p) =>
      let s :=
        if 4 ≤ ch % 8 then   -- ch & VAL_BASE_HEX
          (s.puts (strB "0x")).puts (int2str val FORM_HEX 0)
        else
          let s := printVal val s
          if flag then s.putc ASCII_SP else s
      proc_listLine fuel flag p s
    | none =>
      let ptr := ptr + 1
      if ch = ST_EOL then (ptr, printNewline s)
      else if ch = ST_STRING then
        let (ptr, s) := listString fuel ptr (s.putc ch)
        proc_listLine fuel false ptr s
      else if ch = ST_COMMENT then
        let (ptr, s) := listComment fuel ptr (s.putc ch)
        proc_listLine fuel false ptr s
      else if ch ≥ TOKEN_START then
        let s := if ¬ flag ∧ STSP_START ≤ ch ∧ ch ≤ STSP_END then s.putc ASCII_SP else s
        let s := s.puts ((keyWordList.getD (ch - TOKEN_START) []).map toupperB)
        let s :=
          if ch ≤ STSP_END ∧ ¬ isDelimiter (byteAt s.progArea ptr) then s.putc ASCII_SP
          else s
        proc_listLine fuel false ptr s
      else
        proc_listLine fuel false ptr (s.putc ch)

/-- The line loop of `proc_list`. -/
def proc_listGo : Nat → Nat → St → St
  | 0, _, s => {s with fuelOk := false}
  | fuel + 1, ptr, s =>
    if byteAt s.progArea ptr = ST_EOL then s
    else
      let (p, s) := proc_listLine fuel true (ptr + 1) s
      proc_listGo fuel p s

/-- `proc_list`. -/
def proc_list (n : Nat) (s : St) : St :=
  let s := checkDelimiter s
  if s.errorCode ≠ ERROR_NONE then s
  else
    let s := proc_listGo n 0 s
    let s := if s.progLength < 2 then {s with progLength := 0} else s
    (((s.puts (strB "[")) |> printVal s.progLength).puts (strB " bytes]\r\n"))

/-- The input loop of `proc_prog` (accumulating the tokenized lines that
replace the program area). -/
def proc_progGo : Nat → Nat → List Nat → St → List Nat × St
  | 0, _, acc, s => (acc, {s with fuelOk := false})
  | fuel + 1, remain, acc, s =>
    let s := {s with errorCode := ERROR_NONE}
    let s := s.putc 0x3e
    let (l, s) := inputString s
    if l.length > 0 then
      if byteAt l 0 = CHR_PROG_TERM then (acc, {s with returnRequest := REQUEST_END})
      else
        let (len, buf, e) := convertInternalCode l
        let s := {s with errorCode := e}
        let s := if remain < len then {s with errorCode := ERROR_PGOVER} else s
        if s.errorCode ≠ ERROR_NONE then proc_progGo fuel remain acc (printError s)
        else if len > 0 then
          let len := len + 1
          proc_progGo fuel (remain - len) (acc ++ buf)
            {s with progLength := s.progLength + (len : Int)}
        else proc_progGo fuel remain acc s
    else
      -- the console oracle has no further lines; the C would keep prompting
      (acc, s)

/-- `proc_prog`. -/
def proc_prog (n : Nat) (s : St) : St :=
  let s := checkDelimiter s
  if s.errorCode ≠ ERROR_NONE then s
  else if s.lineNumber ≠ 0 then {s with errorCode := ERROR_NOTINRUN}
  else
    let s := {s with progLength := 0}
    let (acc, s) := proc_progGo n (PROGRAM_AREA_SIZE - 3) [] s
    let s := {s with progArea := acc ++ [ST_EOL]}
    if s.progLength > 1 then {s with progLength := s.progLength + 1} else s

/-- `proc_save`. -/
def proc_save (s : St) : St :=
  let flag := s.cur
  let s := if flag = 0x30 ∨ flag = 0x21 then s.adv 1 else s
  let s := checkDelimiter s
  if s.errorCode ≠ ERROR_NONE then s
  else if s.lineNumber ≠ 0 then {s with errorCode := ERROR_NOTINRUN}
  else if flag = 0x30 then
    {s with eepHeader := {}, eepProg := []}
  else if byteAt s.progArea 0 = ST_EOL then
    {s with errorCode := ERROR_PGEMPTY}
  else
    {s with
      eepHeader := {magic1 := 0x6e, magic2 := 0x42, verMajor := 0, verMinor := 18,
                    progLength := s.progLength, autoRun := if flag = 0x21 then 1 else 0},
      eepProg := (List.range (toU16 s.progLength)).map (byteAt s.progArea)}

/-- `progLoad`: validate the persisted header and, only then, replace the
program area.  Returns the auto-run flag, `-1` on failure. -/
def progLoad (s : St) : Int × St :=
  let eep := s.eepHeader
  if eep.magic1 ≠ 0x6e ∨ eep.magic2 ≠ 0x42 then
    (-1, {s with errorCode := ERROR_PGEMPTY})
  else if eep.progLength < 2 then
    (-1, {s with errorCode := ERROR_PGEMPTY})
  else if eep.progLength > (PROGRAM_AREA_SIZE : Int) then
    (-1, {s with errorCode := ERROR_PGOVER})
  else
    ((eep.autoRun : Int),
     {s with progLength := eep.progLength,
             progArea := (List.range eep.progLength.toNat).map (byteAt s.eepProg)})

/-- `proc_load`. -/
def proc_load (s : St) : St :=
  let s := checkDelimiter s
  if s.errorCode ≠ ERROR_NONE then s
  else if s.lineNumber ≠ 0 then {s with errorCode := ERROR_NOTINRUN}
  else (progLoad s).2

/-- `proc_comment`: skip to EOL. -/
def proc_comment : Nat → St → St
  | 0, s => {s with fuelOk := false}
  | fuel + 1, s => if s.cur ≠ ST_EOL then proc_comment fuel (s.adv 1) else s

/-- `get_arg2`. -/
def get_arg2 (n : Nat) (s : St) : Int × Int × St :=
  let (v1, s) := expr n s
  let s := checkST 0x2c s
  if s.errorCode = ERROR_NONE then
    let (v2, s) := expr n s
    (v1, v2, checkDelimiter s)
  else (v1, 0, s)

/-- `proc_outp`. -/
def proc_outp (n : Nat) (s : St) : St :=
  let (v1, v2, s) := get_arg2 n s
  if s.errorCode = ERROR_NONE then
    if s.gpioWriteFn v1 v2 ≠ 0 then {s with errorCode := ERROR_PARA} else s
  else s

/-- `proc_pwm`. -/
def proc_pwm (n : Nat) (s : St) : St :=
  let (v1, v2, s) := get_arg2 n s
  if s.errorCode = ERROR_NONE then
    if s.pwmSetFn v1 v2 ≠ 0 then {s with errorCode := ERROR_PARA} else s
  else s

/-- `proc_delay`. -/
def proc_delay (n : Nat) (s : St) : St :=
  let (val, s) := expr n s
  let s := checkDelimiter s
  if s.errorCode ≠ ERROR_NONE then s else delayMs n val s

/-- The wait loop of `proc_pause`. -/
def pause_wait : Nat → St → St
  | 0, s => {s with fuelOk := false}
  | fuel + 1, s =>
    let (ch, s) := checkBreakKey s
    if ch = 0 then pause_wait fuel s else s

/-- `proc_pause`. -/
def proc_pause (n : Nat) (s : St) : St :=
  let s := checkDelimiter s
  if s.errorCode ≠ ERROR_NONE then s else pause_wait n s

/-- `proc_reset` (`bios_systemReset` does not return; we flag the state). -/
def proc_reset (s : St) : St :=
  let s := checkDelimiter s
  if s.errorCode ≠ ERROR_NONE then s else {s with halted := true}

/-- `proc_randomize`. -/
def proc_randomize (n : Nat) (s : St) : St :=
  let (val, s) := expr n s
  let s := checkDelimiter s
  if s.errorCode ≠ ERROR_NONE then s else {s with randSeed := val}

/-- `proc_data`: runtime no-op, skip own payload. -/
def proc_data : Nat → St → St
  | 0, s => {s with fuelOk := false}
  | fuel + 1, s =>
    if ¬ isDelimiter s.cur then
      proc_data fuel {s with ep := ⟨s.ep.mem, get_next_ptr (s.buf s.ep.mem) s.ep.idx⟩}
    else s

/-- The value-consuming tail of `proc_read`. -/
def proc_readEval (n : Nat) (pvar : Option VarRef) (s : St) : St :=
  let (val, s) := expr n s
  if s.errorCode ≠ ERROR_NONE then s
  else
    let s := match pvar with
             | some r => s.wrVar r val
             | none => s
    let ch := s.cur
    if isDelimiter ch ∨ ch = 0x2c then s
    else {s with errorCode := ERROR_PARA}

/-- `proc_read`. -/
def proc_read (n : Nat) (s : St) : St :=
  let (pvar, s) := getParameterPointer n s
  let s := checkDelimiter s
  if s.errorCode ≠ ERROR_NONE then s
  else
    let ptrsave := s.ep
    let s := {s with ep := s.dataReadPointer.getD ⟨.prog, 1⟩}
    let s :=
      if s.cur ≠ 0x2c then
        let lnum := s.lineNumber
        match findST n [ST_DATA] lnum s with
        | (none, s) => {s with errorCode := ERROR_UXREAD}
        | (some p, s) => proc_readEval n pvar {s with ep := p}
      else proc_readEval n pvar (s.adv 1)
    {s with dataReadPointer := some s.ep, ep := ptrsave}

/-- `proc_restore`. -/
def proc_restore (s : St) : St :=
  let s := checkDelimiter s
  if s.errorCode ≠ ERROR_NONE then s else {s with dataReadPointer := none}

/-- The common tail of `let_variable` after the operator is known. -/
def let_tail (n : Nat) (op : Nat) (pvar : VarRef) (s : St) : St :=
  let s := checkST 0x3d s
  if s.errorCode ≠ ERROR_NONE then s
  else
    let (val, s) := expr n s
    if s.errorCode ≠ ERROR_NONE then s
    else
      if op = 0x2b then s.wrVar pvar (wrap16 (s.rdVar pvar + val))
      else if op = 0x2d then s.wrVar pvar (wrap16 (s.rdVar pvar - val))
      else if op = 0x2a then s.wrVar pvar (wrap16 (s.rdVar pvar * val))
      else if op = 0x2f then
        let s := checkDivZero val s
        if s.errorCode = ERROR_NONE then s.wrVar pvar (cdiv (s.rdVar pvar) val) else s
      else if op = 0x25 then
        let s := checkDivZero val s
        if s.errorCode = ERROR_NONE then s.wrVar pvar (cmod (s.rdVar pvar) val) else s
      else if op = 0x7c then s.wrVar pvar (bor16 (s.rdVar pvar) val)
      else if op = 0x26 then s.wrVar pvar (band16 (s.rdVar pvar) val)
      else if op = 0x5e then s.wrVar pvar (bxor16 (s.rdVar pvar) val)
      else if op = 0x3c then s.wrVar pvar (shl16 (s.rdVar pvar) val)
      else if op = 0x3e then s.wrVar pvar (shr16 (s.rdVar pvar) val)
      else if op = 0x3d then s.wrVar pvar val
      else s

/-- `let_variable`: assignments, compound assignments, `++`/`--`. -/
def let_variable (n : Nat) (pvar : VarRef) (s : St) : St :=
  let op := s.cur
  if op = s.byte ⟨s.ep.mem, s.ep.idx + 1⟩ then
    let s := s.adv 2
    if op = 0x2b then s.wrVar pvar (wrap16 (s.rdVar pvar + 1))
    else if op = 0x2d then s.wrVar pvar (wrap16 (s.rdVar pvar - 1))
    else if op ≠ 0x3c ∧ op ≠ 0x3e then {s with errorCode := ERROR_SYNTAX}
    else let_tail n op pvar s
  else
    let s :=
      if op = 0x2b ∨ op = 0x2d ∨ op = 0x2a ∨ op = 0x2f ∨ op = 0x25 ∨ op = 0x7c ∨
          op = 0x26 ∨ op = 0x5e then s.adv 1
      else s
    let_tail n op pvar s

/-- `proc_let`. -/
def proc_let (n : Nat) (pvar : VarRef) (s : St) : St :=
  checkDelimiter (let_variable n pvar s)

/-- The `ELSEIF` retry loop of `proc_if`. -/
def proc_ifGo : Nat → St → St
  | 0, s => {s with fuelOk := false}
  | fuel + 1, s =>
    let (val, s) := expr fuel s
    let s := checkST ST_THEN s
    if s.errorCode ≠ ERROR_NONE then s
    else if val ≠ 0 then
      if IS_VAL s.cur then proc_goto fuel s else s
    else
      match findST fuel [ST_ENDIF, ST_ELSE, ST_ELSEIF] s.lineNumber s with
      | (none, s) => {s with errorCode := ERROR_NOENDIF}
      | (some p, s) =>
        let s := {s with ep := p}
        let ch := s.byte ⟨p.mem, p.idx - 1⟩
        if ch = ST_ELSEIF then proc_ifGo fuel s
        else if ch = ST_ELSE then
          if IS_VAL s.cur then proc_goto fuel s else s
        else s

/-- `proc_if`. -/
def proc_if (n : Nat) (s : St) : St := proc_ifGo n s

/-- `proc_else`: taken branch ends; skip to the matching `ENDIF`. -/
def proc_else (n : Nat) (s : St) : St :=
  match findST n [ST_ENDIF] s.lineNumber s with
  | (none, s) => {s with errorCode := ERROR_NOENDIF}
  | (some p, s) => {s with ep := p}

/-- `proc_elseif`. -/
def proc_elseif (n : Nat) (s : St) : St := proc_else n s

/-- `proc_endif`. -/
def proc_endif (s : St) : St := checkDelimiter s

/-! ### Executor (`interpreterMain`) -/

/-- Statement dispatch (`procCodeList`): `ch` is the opcode. -/
def dispatchST (n : Nat) (ch : Nat) (s : St) : St :=
  if ch = ST_PRINT then proc_print n s
  else if ch = ST_INPUT then proc_input n s
  else if ch = ST_GOTO then proc_goto n s
  else if ch = ST_GOSUB then proc_gosub n s
  else if ch = ST_RETURN then proc_return s
  else if ch = ST_FOR then proc_for n s
  else if ch = ST_NEXT then proc_next s
  else if ch = ST_DO then proc_do s
  else if ch = ST_LOOP then proc_loop n s
  else if ch = ST_WHILE then proc_while n s
  else if ch = ST_IF then proc_if n s
  else if ch = ST_RUN then proc_run s
  else if ch = ST_RESUME then proc_resume s
  else if ch = ST_STOP then proc_stop s
  else if ch = ST_END then proc_end s
  else if ch = ST_NEW then proc_new s
  else if ch = ST_LIST then proc_list n s
  else if ch = ST_PROG then proc_prog n s
  else if ch = ST_SAVE then proc_save s
  else if ch = ST_LOAD then proc_load s
  else if ch = ST_DELAY then proc_delay n s
  else if ch = ST_PAUSE then proc_pause n s
  else if ch = ST_RESET then proc_reset s
  else if ch = ST_EXIT then proc_exit n s
  else if ch = ST_CONTINUE then proc_continue n s
  else if ch = ST_RONDOMIZE then proc_randomize n s
  else if ch = ST_DATA then proc_data n s
  else if ch = ST_READ then proc_read n s
  else if ch = ST_RESTORE then proc_restore s
  else if ch = ST_OUTP then proc_outp n s
  else if ch = ST_PWM then proc_pwm n s
  else if ch = ST_ELSE then proc_else n s
  else if ch = ST_ELSEIF then proc_elseif n s
  else proc_endif s

/-- The fetch/dispatch loop of `interpreterMain`; the `Bool` phase selects
the outer (line-start) or inner (statement) loop. -/
def interpGo : Nat → Bool → St → St
  | 0, _, s => {s with fuelOk := false}
  | fuel + 1, true, s =>
    -- outer loop: length byte / END request
    let ch := s.cur
    let s := s.adv 1
    if ch = ST_EOL ∨ s.returnRequest = REQUEST_END then
      if s.lineNumber ≠ 0 then programInit s else s
    else
      -- in Run mode skip the line's label literal
      let s :=
        if s.lineNumber ≠ 0 then
          let c2 := s.cur
          if 0x30 ≤ c2 ∧ c2 ≤ 0x39 then s.adv 1
          else if IS_ST_VAL_DEC c2 then s.adv (GET_VAL_SIZE c2 + 1)
          else s
        else s
      interpGo fuel false s
  | fuel + 1, false, s =>
    let (bk, s) := checkBreakKey s
    if bk < 0 then printError s
    else
      let s := {s with exprDepth := 0, returnRequest := 0}
      -- dispatch epilogue: error exit, `returnRequest` handling, or next
      -- statement (a reset halts the machine)
      let after : St → St := fun s' =>
        if s'.errorCode ≠ ERROR_NONE then printError s'
        else if s'.halted then s'
        else if s'.returnRequest ≠ 0 then interpGo fuel true s'
        else interpGo fuel false s'
      let ch := s.cur
      let s := s.adv 1
      if ch = ST_EOL then
        if s.lineNumber = 0 then s
        else interpGo fuel true {s with lineNumber := s.lineNumber + 1}
      else if ch = 0x20 ∨ ch = 0x09 ∨ ch = 0x3a then
        after s
      else if ch = ST_ARRAY then
        match getArrayReference fuel s with
        | (none, s) => printError s
        | (some r, s) => after (proc_let fuel r s)
      else if 0x41 ≤ ch ∧ ch ≤ 0x5a then
        after (proc_let fuel (.gvar (ch - 0x41)) s)
      else if ch = ST_COMMENT then
        after (proc_comment fuel s)
      else if STCODE_START ≤ ch ∧ ch ≤ STCODE_END then
        after (dispatchST fuel ch s)
      else
        after {s with errorCode := ERROR_SYNTAX}

/-- `interpreterMain`. -/
def interpreterMain (fuel : Nat) (s : St) : St := interpGo fuel true s

/-- One cycle of `basicMain` on one non-empty console line: tokenize into
the REPL code buffer and execute (the `OK` prompt precedes the input and is
not part of the line's own output). -/
def basicMainStep (fuel : Nat) (raw : List Nat) (s : St) : St :=
  let s := {s with errorCode := ERROR_NONE, lineNumber := 0, returnRequest := 0}
  let (len, buf, e) := convertInternalCode raw
  let s := {s with errorCode := e}
  if s.errorCode ≠ ERROR_NONE then printError s
  else if len > 1 then
    interpreterMain fuel {s with replBuf := buf, ep := ⟨.repl, 0⟩}
  else s

/-- A REPL cycle started on a fresh interpreter (the `basicInit`/`basicMain`
entry state) with console line `raw`. -/
def replRun (fuel : Nat) (raw : String) : St :=
  basicMainStep fuel (strB raw) {}

/-- Helper: a stored program built from source lines exactly as `PROG`
stores them (tokenized lines back to back, then the terminating EOL). -/
def progOf (lines : List (List Nat)) : List Nat :=
  (lines.map fun l => (convertInternalCode l).2.1).flatten ++ [ST_EOL]

/-- A run-mode execution of a stored program from its first line, as
`RUN` enters it (`programRun` followed by `interpreterMain`). -/
def runProgram (fuel : Nat) (lines : List String) (s : St) : St :=
  interpreterMain fuel (programRun {s with progArea := progOf (lines.map strB)})

/-- Entry state for the amended claim C2: about to run the stored
program `?1%0` in Run mode, with distinctive variable and array contents,
five occupied control-stack frames, and a non-trivial resume snapshot. -/
def c2entry : St :=
  {progArea := progOf [strB "?1%0"], ep := ⟨.prog, 0⟩, lineNumber := 1, vars := fun i => (100 : Int) + i, arr := fun i => (1000 : Int) + i, stackFrames := fun i => {type := ST_FOR, returnPointer := ⟨.prog, 2 + i⟩, returnLineNumber := 1, pvar := .gvar i, limit := 3, step := 1}, stackPointer := 5, resumePointer := some ⟨.prog, 3⟩, resumeLineNumber := 77}

/-- Claim C4 counterexample: a state whose control-stack top is a `FOR`
frame (not `GOSUB`) with a `GOSUB` frame below it; `RETURN` is no runtime
error here — it pops through the `FOR` frame and jumps to the `GOSUB`
frame's return point. -/
def c4wit : St :=
  {replBuf := [0], stackPointer := 2, stackFrames := fun i => if i = 0 then {type := ST_GOSUB, returnPointer := ⟨Mem.prog, 11⟩, returnLineNumber := 4} else {type := 0x89}}

/-- A `NEXT` state for the claim C8 witness: one `FOR` frame over counter
`I` (value 1), limit 3, step 1. -/
def c8wit : St :=
  {replBuf := [0], stackPointer := 1, stackFrames := fun _ => {type := ST_FOR, returnPointer := ⟨Mem.prog, 9⟩, returnLineNumber := 4, pvar := VarRef.gvar 8, limit := 3, step := 1}, vars := fun i => if i = 8 then 1 else 0}

/-- The fields of the interpreter state other than the console output and
the control registers, tupled to state preservation facts. -/
def errCore (x : St) : (Nat → Int) × (Nat → Int) × List Nat × (Nat → Frame) × Nat × Option Ptr × Int :=
  (x.vars, x.arr, x.progArea, x.stackFrames, x.stackPointer, x.resumePointer, x.resumeLineNumber)

/-! ### Supporting lemmas

State-preservation facts of the evaluator and the scanners (these
functions never touch `stackPointer`), and the popping loop of
`proc_return`. -/

theorem errCore_puts (x : St) (l : List Nat) : errCore (x.puts l) = errCore x := rfl

theorem errCore_putc (x : St) (c : Nat) : errCore (x.putc c) = errCore x := rfl

theorem errCore_err (x : St) (e : Nat) : errCore ({x with errorCode := e} : St) = errCore x := rfl

theorem checkBreakKey_sp (s : St) : (checkBreakKey s).2.stackPointer = s.stackPointer := by
  unfold checkBreakKey inputChar executeBreak
  cases s.inputQ <;> dsimp only <;> (repeat' split) <;> rfl

theorem getTick_sp (s : St) : (getTick s).2.stackPointer = s.stackPointer := rfl

theorem checkST_sp (c : Nat) (s : St) : (checkST c s).stackPointer = s.stackPointer := by
  unfold checkST
  (repeat' split) <;> rfl

theorem checkDivZero_sp (v : Int) (s : St) : (checkDivZero v s).stackPointer = s.stackPointer := by
  unfold checkDivZero
  split <;> rfl

theorem checkDelimiter_sp (s : St) : (checkDelimiter s).stackPointer = s.stackPointer := by
  unfold checkDelimiter
  split <;> rfl

theorem inkey_wait_sp (n : Nat) (v w : Int) (s : St) :
    (inkey_wait n v w s).2.stackPointer = s.stackPointer := by
  induction n generalizing s with
  | zero => rfl
  | succ n ih =>
    simp only [inkey_wait]
    rcases hB : checkBreakKey s with ⟨c1, s1⟩
    have h1 := checkBreakKey_sp s
    rw [hB] at h1
    dsimp only at h1
    dsimp only
    split
    · exact h1
    · split
      · dsimp only; rw [getTick_sp]; exact h1
      · rw [ih, getTick_sp]; exact h1

theorem inkey_func_sp (n : Nat) (v : Int) (s : St) :
    (inkey_func n v s).2.stackPointer = s.stackPointer := by
  unfold inkey_func
  rw [inkey_wait_sp]
  rfl

theorem adv_sp (s : St) (k : Nat) : (s.adv k).stackPointer = s.stackPointer := rfl

theorem rew_sp (s : St) (k : Nat) : (s.rew k).stackPointer = s.stackPointer := rfl

theorem ite_sp (c : Prop) [Decidable c] (a b : Int × St) (k : Nat)
    (ha : a.2.stackPointer = k) (hb : b.2.stackPointer = k) :
    (if c then a else b).2.stackPointer = k := by
  split
  · exact ha
  · exact hb

theorem evalE_sp (n : Nat) (c : ECall) (s : St) :
    (evalE n c s).2.stackPointer = s.stackPointer := by
  induction n generalizing c s with
  | zero => rfl
  | succ n ih =>
    cases c
    case calcV =>
      simp only [evalE]
      generalize ht : ({s with exprDepth := (s.exprDepth + 1) % 256} : St) = t
      have htsp : t.stackPointer = s.stackPointer := by rw [← ht]
      by_cases hD : (s.exprDepth + 1) % 256 > EXPR_DEPTH_MAX
      · rw [if_pos hD]
      · rw [if_neg hD]
        rcases hd : get_dec_val (t.buf s.ep.mem) s.ep.idx with _ | ⟨v, j⟩
        · dsimp only
          generalize hg1 : t.adv 1 = t1
          have h1 : t1.stackPointer = s.stackPointer := by rw [← hg1]; exact htsp
          generalize hg2 : checkST 91 t1 = t2
          have h2 : t2.stackPointer = s.stackPointer := by rw [← hg2, checkST_sp]; exact h1
          generalize hg3 : evalE n ECall.exprE t2 = p3
          have h3 : p3.2.stackPointer = s.stackPointer := by rw [← hg3, ih]; exact h2
          generalize hg4 : checkST 93 p3.2 = t4
          have h4 : t4.stackPointer = s.stackPointer := by rw [← hg4, checkST_sp]; exact h3
          generalize hg5 : evalE n ECall.exprE t1 = p5
          have h5 : p5.2.stackPointer = s.stackPointer := by rw [← hg5, ih]; exact h1
          generalize hg6 : checkST 41 p5.2 = t6
          have h6 : t6.stackPointer = s.stackPointer := by rw [← hg6, checkST_sp]; exact h5
          generalize hg7 : evalE n ECall.calcV t1 = p7
          have h7 : p7.2.stackPointer = s.stackPointer := by rw [← hg7, ih]; exact h1
          generalize hg8 : evalE n ECall.calcF t1 = p8
          have h8 : p8.2.stackPointer = s.stackPointer := by rw [← hg8, ih]; exact h1
          generalize hg9 : inkey_func n p8.1 p8.2 = p9
          have h9 : p9.2.stackPointer = s.stackPointer := by rw [← hg9, inkey_func_sp]; exact h8
          generalize hg10 : getTick t1 = p10
          have h10 : p10.2.stackPointer = s.stackPointer := by rw [← hg10, getTick_sp]; exact h1
          generalize hr1 : ({p3.2 with errorCode := ERROR_ARRAY} : St) = r1
          have hr1sp : r1.stackPointer = s.stackPointer := by rw [← hr1]; exact h3
          generalize hr2 : ({p8.2 with errorCode := ERROR_PARA} : St) = r2
          have hr2sp : r2.stackPointer = s.stackPointer := by rw [← hr2]; exact h8
          generalize hr3 : ({t1 with errorCode := ERROR_SYNTAX} : St) = r3
          have hr3sp : r3.stackPointer = s.stackPointer := by rw [← hr3]; exact h1
          clear hr1 hr2 hr3 hg1 hg2 hg3 hg4 hg5 hg6 hg7 hg8 hg9 hg10 hd ht htsp hD ih
          repeat' first
            | exact h1
            | exact h2
            | exact h3
            | exact h4
            | exact h5
            | exact h6
            | exact h7
            | exact h8
            | exact h9
            | exact h10
            | exact hr1sp
            | exact hr2sp
            | exact hr3sp
            | apply ite_sp
        · rfl
    all_goals
      simp only [evalE] <;> (repeat' split) <;> (try rfl) <;>
        simp_all only [ih, getTick_sp, checkST_sp, checkDivZero_sp, inkey_func_sp, adv_sp, rew_sp]

theorem expr_sp (n : Nat) (s : St) : (expr n s).2.stackPointer = s.stackPointer :=
  evalE_sp n ECall.exprE s

theorem label2exeptr_sp (fuel : Nat) (v : Int) (s : St) :
    (label2exeptr fuel v s).2.stackPointer = s.stackPointer := by
  unfold label2exeptr
  split <;> rfl

theorem goto_sub_sp (n : Nat) (s : St) : (goto_sub n s).2.stackPointer = s.stackPointer := by
  unfold goto_sub
  rcases hE : expr n s with ⟨v, s1⟩
  have h1 : s1.stackPointer = s.stackPointer := by
    have h := expr_sp n s
    rw [hE] at h
    exact h
  dsimp only
  generalize hg2 : checkDelimiter s1 = s2
  have h2 : s2.stackPointer = s.stackPointer := by rw [← hg2, checkDelimiter_sp]; exact h1
  split
  · exact h2
  · rcases hL : label2exeptr n v s2 with ⟨o, s3⟩
    have h3 : s3.stackPointer = s.stackPointer := by
      have h := label2exeptr_sp n v s2
      rw [hL] at h
      exact h.trans h2
    cases o <;> exact h3

theorem checkDelimiter_id (s : St) (hdel : isDelimiter s.cur = true) : checkDelimiter s = s := by
  unfold checkDelimiter
  rw [if_neg]
  intro h
  exact h.2 (by rw [hdel])

theorem proc_returnLoop_none (s : St) (m : Nat)
    (h : ∀ k, k < m → (s.stackFrames k).type ≠ ST_GOSUB) :
    proc_returnLoop s m = {s with stackPointer := 0, errorCode := ERROR_UXRETURN} := by
  induction m with
  | zero => rfl
  | succ m ih =>
    simp only [proc_returnLoop]
    rw [if_neg (h m (Nat.lt_succ_self m))]
    exact ih fun k hk => h k (Nat.lt_succ_of_lt hk)

theorem proc_returnLoop_find (s : St) (m k : Nat) (hk : k < m)
    (hg : (s.stackFrames k).type = ST_GOSUB)
    (habove : ∀ j, k < j → j < m → (s.stackFrames j).type ≠ ST_GOSUB) :
    proc_returnLoop s m = {s with stackPointer := k, ep := (s.stackFrames k).returnPointer, lineNumber := (s.stackFrames k).returnLineNumber} := by
  induction m with
  | zero => omega
  | succ m ih =>
    simp only [proc_returnLoop]
    by_cases hkm : k = m
    · subst hkm
      rw [if_pos hg]
    · rw [if_neg (habove m (by omega) (by omega))]
      exact ih (by omega) fun j h1 h2 => habove j h1 (by omega)

theorem rdVar_sp_irrel (s : St) (m : Nat) (r : VarRef) :
    ({s with stackPointer := m} : St).rdVar r = s.rdVar r := by
  cases r <;> rfl

theorem rdVar_wrVar (s : St) (r : VarRef) (v : Int) : (s.wrVar r v).rdVar r = v := by
  cases r <;> simp [St.wrVar, St.rdVar]

theorem ofU8_toU16 (v : Int) (hlo : -128 ≤ v) (hhi : v ≤ 127) :
    ofU8 (toU16 v % 256) = v := by
  unfold ofU8 toU16
  split <;> omega

theorem ofU16_bytes (v : Int) (hlo : -32768 ≤ v) (hhi : v ≤ 32767) :
    ofU16 (toU16 v / 256 % 256 * 256 + toU16 v % 256) = v := by
  unfold ofU16 toU16
  split <;> omega

/-! ### Claim theorems -/

/-- Claim C1: the claim states that `&&`/`||` evaluate both operands (the
right operand's bytecode is always consumed).  The code refutes it: the C
expressions `acc = !!acc && !!expr2nd()` / `acc = !!acc || !!expr2nd()`
short-circuit, so when the left operand already decides the result the
right operand's bytecode is not consumed.  At the failing input `?0&&1`,
`expr` returns 0 with the cursor still on the right operand (index 3, not
4 as consuming it would give — compare `1&&1`, which ends at index 4), and
the PRINT statement then aborts with a `Syntax` error on the stranded
literal. -/
theorem c1_logical_and_short_circuits :
    (expr 50 {replBuf := [0x30, 0x26, 0x26, 0x31, 0x00]}).1 = 0 ∧
    (expr 50 {replBuf := [0x30, 0x26, 0x26, 0x31, 0x00]}).2.ep.idx = 3 ∧
    (expr 50 {replBuf := [0x31, 0x26, 0x26, 0x31, 0x00]}).2.ep.idx = 4 ∧
    (replRun 300 "?0&&1").errorCode = ERROR_SYNTAX ∧
    (replRun 300 "?0&&1").output = strB "0\n\rSyntax error\n\r" ∧
    (replRun 300 "?5||1").errorCode = ERROR_SYNTAX ∧
    (replRun 300 "?5||1").output = strB "1\n\rSyntax error\n\r" := by
  decide

/-- Claim C2 counterexample: the run of the stored program `GOSUB 2` /
`2 ?1%0` terminates with `Division by 0` (not `Break`), yet the control
stack still holds the GOSUB frame: depth 1, not 0 as the claim requires. -/
theorem c2_error_exit_keeps_stack_frame :
    (runProgram 300 ["GOSUB 2", "2 ?1%0"] {}).errorCode = ERROR_DIVZERO ∧
    (runProgram 300 ["GOSUB 2", "2 ?1%0"] {}).stackPointer = 1 := by
  decide

/-- Claim C2 as amended: when a run (`lineNumber ≥ 1`) terminates with an
error other than `Break`, the interpreter prints the message and returns
with everything else exactly as it was at the moment the error arose: the
26 variables, the `@` array and the program area are preserved, and the
control stack (contents and depth, here five occupied frames) and the
resume snapshot (here pointing at program offset 3, line 77) are preserved
as well — neither is cleared.  Shown for the run of `?1%0` (which completes
within its fuel and prints exactly the error message), together with the
general fact that the error-printing epilogue `printError` preserves the
variables, array, program area, control stack and resume snapshot of every
state. -/
theorem c2_error_exit_preserves_state :
    c2entry.stackPointer = 5 ∧
    c2entry.resumePointer = some ⟨.prog, 3⟩ ∧
    (interpreterMain 12 c2entry).errorCode = ERROR_DIVZERO ∧
    (interpreterMain 12 c2entry).vars = c2entry.vars ∧
    (interpreterMain 12 c2entry).arr = c2entry.arr ∧
    (interpreterMain 12 c2entry).progArea = c2entry.progArea ∧
    (interpreterMain 12 c2entry).stackFrames = c2entry.stackFrames ∧
    (interpreterMain 12 c2entry).stackPointer = c2entry.stackPointer ∧
    (interpreterMain 12 c2entry).resumePointer = c2entry.resumePointer ∧
    (interpreterMain 12 c2entry).resumeLineNumber = c2entry.resumeLineNumber ∧
    (interpreterMain 12 c2entry).output = strB "\n\rDivision by 0 error in 1\n\r" ∧
    (interpreterMain 12 c2entry).fuelOk = true ∧
    (∀ t : St, (printError t).vars = t.vars ∧ (printError t).arr = t.arr ∧
      (printError t).progArea = t.progArea ∧ (printError t).stackFrames = t.stackFrames ∧
      (printError t).stackPointer = t.stackPointer ∧ (printError t).resumePointer = t.resumePointer ∧
      (printError t).resumeLineNumber = t.resumeLineNumber) :=
  ⟨rfl, rfl, by decide, rfl, rfl, rfl, rfl, rfl, rfl, rfl, by decide, by decide, fun t => by
    have h : errCore (printError t) = errCore t := by
      unfold printError printNewline printVal
      dsimp only
      repeat' split
      all_goals simp only [errCore_puts, errCore_putc, errCore_err]
    exact ⟨congrArg (fun p => p.1) h, congrArg (fun p => p.2.1) h, congrArg (fun p => p.2.2.1) h, congrArg (fun p => p.2.2.2.1) h, congrArg (fun p => p.2.2.2.2.1) h, congrArg (fun p => p.2.2.2.2.2.1) h, congrArg (fun p => p.2.2.2.2.2.2) h⟩⟩

/-- Claim C3: division or modulo with a zero right operand raises
`Division by 0` (shown for the statements `?1/0` and `?1%0`, and for any
left accumulator value `a` at the `*`/`/`/`%` loop level), and the guarded
operation writes nothing: a compound assignment `/=0` or `%=0` leaves the
target variable unchanged for every starting value `a`. -/
theorem c3_div_zero_guard (a : Int) :
    (replRun 300 "?1/0").errorCode = ERROR_DIVZERO ∧
    (replRun 300 "?1%0").errorCode = ERROR_DIVZERO ∧
    (evalE 20 (ECall.expr4L a) {replBuf := [0x2f, 0x30, 0]}).2.errorCode = ERROR_DIVZERO ∧
    (evalE 20 (ECall.expr4L a) {replBuf := [0x25, 0x30, 0]}).2.errorCode = ERROR_DIVZERO ∧
    (let_variable 20 (.gvar 0) {replBuf := [0x2f, 0x3d, 0x30, 0], vars := fun i => if i = 0 then a else 0}).errorCode = ERROR_DIVZERO ∧
    (let_variable 20 (.gvar 0) {replBuf := [0x2f, 0x3d, 0x30, 0], vars := fun i => if i = 0 then a else 0}).vars 0 = a ∧
    (let_variable 20 (.gvar 0) {replBuf := [0x25, 0x3d, 0x30, 0], vars := fun i => if i = 0 then a else 0}).errorCode = ERROR_DIVZERO ∧
    (let_variable 20 (.gvar 0) {replBuf := [0x25, 0x3d, 0x30, 0], vars := fun i => if i = 0 then a else 0}).vars 0 = a :=
  ⟨by decide, by decide, rfl, rfl, rfl, rfl, rfl, rfl⟩

theorem c4_return_top_mismatch_counterexample :
    (c4wit.stackFrames (c4wit.stackPointer - 1)).type ≠ ST_GOSUB ∧
    (proc_return c4wit).errorCode = ERROR_NONE ∧
    (proc_return c4wit).stackPointer = 0 ∧
    (proc_return c4wit).ep = ⟨Mem.prog, 11⟩ ∧
    (proc_return c4wit).lineNumber = 4 := by
  decide

/-- Claim C4: `NEXT` with a non-`FOR` top frame raises `Next` with no jump,
and `LOOP` with a non-`DO` top frame raises `Loop` with no jump, as the
claim states; but `RETURN` does not require a `GOSUB` frame on top — it
pops frames until it finds one (jumping to that frame's return point with
no error), and raises `Return` only when no `GOSUB` frame exists anywhere
on the stack. -/
theorem c4_terminator_kind_check (n : Nat) (s : St)
    (h0 : s.errorCode = ERROR_NONE) (hdel : isDelimiter s.cur = true) :
    (s.stackPointer ≠ 0 → (s.stackFrames (s.stackPointer - 1)).type ≠ ST_FOR →
      (proc_next s).errorCode = ERROR_UXNEXT ∧ (proc_next s).ep = s.ep) ∧
    (s.stackPointer ≠ 0 → (s.stackFrames (s.stackPointer - 1)).type ≠ ST_DO →
      (proc_loop n s).errorCode = ERROR_UXLOOP ∧ (proc_loop n s).ep = s.ep) ∧
    ((∀ k, k < s.stackPointer → (s.stackFrames k).type ≠ ST_GOSUB) →
      (proc_return s).errorCode = ERROR_UXRETURN ∧ (proc_return s).stackPointer = 0) ∧
    (∀ k, k < s.stackPointer → (s.stackFrames k).type = ST_GOSUB →
      (∀ j, k < j → j < s.stackPointer → (s.stackFrames j).type ≠ ST_GOSUB) →
      (proc_return s).errorCode = ERROR_NONE ∧ (proc_return s).stackPointer = k ∧
      (proc_return s).ep = (s.stackFrames k).returnPointer ∧
      (proc_return s).lineNumber = (s.stackFrames k).returnLineNumber) := by
  refine ⟨?_, ?_, ?_, ?_⟩
  · intro hsp hty
    unfold proc_next
    rw [checkDelimiter_id s hdel, if_neg (by rw [h0]; exact fun h => h rfl)]
    unfold popStack
    rw [if_neg hsp]
    dsimp only
    rw [if_pos (by simpa using hty)]
    exact ⟨rfl, rfl⟩
  · intro hsp hty
    unfold proc_loop popStack
    rw [if_neg hsp]
    dsimp only
    rw [if_pos (by simpa using hty)]
    exact ⟨rfl, rfl⟩
  · intro hall
    unfold proc_return
    rw [checkDelimiter_id s hdel, if_neg (by rw [h0]; exact fun h => h rfl)]
    rw [proc_returnLoop_none s s.stackPointer hall]
    exact ⟨rfl, rfl⟩
  · intro k hk hg habove
    unfold proc_return
    rw [checkDelimiter_id s hdel, if_neg (by rw [h0]; exact fun h => h rfl)]
    rw [proc_returnLoop_find s s.stackPointer k hk hg habove]
    exact ⟨h0, rfl, rfl, rfl⟩

theorem c4_terminator_kind_check_witness :
    (proc_next c4wit).errorCode = ERROR_UXNEXT ∧
    (proc_loop 5 c4wit).errorCode = ERROR_UXLOOP ∧
    (proc_return c4wit).errorCode = ERROR_NONE ∧ (proc_return c4wit).stackPointer = 0 := by
  have T := c4_terminator_kind_check 5 c4wit (by decide) (by decide)
  refine ⟨(T.1 (by decide) (by decide)).1, (T.2.1 (by decide) (by decide)).1, ?_, ?_⟩
  · exact (T.2.2.2 0 (by decide) (by decide) (fun j h1 h2 => by
      have hsp2 : c4wit.stackPointer = 2 := rfl
      rw [hsp2] at h2
      have hj : j = 1 := by omega
      subst hj
      decide)).1
  · exact (T.2.2.2 0 (by decide) (by decide) (fun j h1 h2 => by
      have hsp2 : c4wit.stackPointer = 2 := rfl
      rw [hsp2] at h2
      have hj : j = 1 := by omega
      subst hj
      decide)).2.1

/-- Claim C5 counterexample: the claim's expected output for the REPL line
`? DEC(1234,205)` is `  12.34` (two leading spaces) followed by CR LF; the
code prints ` 12.34` (one leading space — the width field of 5 counts
digit positions only and the inserted decimal point is a sixth character)
followed by LF CR. -/
theorem c5_dec205_counterexample :
    (replRun 300 "? DEC(1234,205)").output = strB " 12.34\n\r" ∧
    strB " 12.34\n\r" ≠ strB "  12.34\r\n" := by
  decide

/-- Claim C5 as amended: `DEC(e,w)` with `|w| ≥ 100` inserts the decimal
point at the position named by the hundreds digit of `|w|`, counted from
the right, with the low two digits of `|w|` as the count of digit
positions (the inserted point is one extra character beyond them),
zero-padded when `w` is negative and space-padded when positive; the REPL
line `? DEC(1234,205)` outputs exactly ` 12.34` followed by LF CR.  The
other width shapes match the reference manual's examples. -/
theorem c5_dec_formatting :
    (replRun 300 "? DEC(1234,205)").output = strB " 12.34\n\r" ∧
    (replRun 300 "? DEC(1234,205)").errorCode = ERROR_NONE ∧
    int2str 1234 FORM_DEC 205 = strB " 12.34" ∧
    int2str 1234 FORM_DEC 200 = strB "12.34" ∧
    int2str (-1234) FORM_DEC (-306) = strB "-01.234" ∧
    int2str 1234 FORM_DEC 500 = strB "0.01234" := by
  decide

/-- Claim C6 counterexample: a flat, unnested expression of seventeen
terms raises `Expr too deep` (sixteen do not), because `exprDepth` counts
every `calcValue` entry since the start of the statement and is never
restored on exit — it is not the recursion depth. -/
theorem c6_flat_sum_too_deep :
    (replRun 500 "?1+1+1+1+1+1+1+1+1+1+1+1+1+1+1+1+1").errorCode = ERROR_TOODEEP ∧
    (replRun 500 "?1+1+1+1+1+1+1+1+1+1+1+1+1+1+1+1").errorCode = ERROR_NONE ∧
    (replRun 500 "?1+1+1+1+1+1+1+1+1+1+1+1+1+1+1+1").output = strB "16\n\r" := by
  decide

/-- Claim C6 as amended: `calcValue` raises `Expr too deep` exactly when
the incremented `exprDepth` counter exceeds `EXPR_DEPTH_MAX` (16); the
counter counts `calcValue` entries since the start of the statement — it
is incremented on entry and not restored on exit (the returned state keeps
`e + 1`), so it is not the recursion depth of the current expression. -/
theorem c6_exprDepth_counts_entries (e : Nat) (he : e < 255) :
    (e < EXPR_DEPTH_MAX →
      (calcValue 10 {replBuf := [0x37, 0], exprDepth := e}).1 = 7 ∧
      (calcValue 10 {replBuf := [0x37, 0], exprDepth := e}).2.errorCode = ERROR_NONE ∧
      (calcValue 10 {replBuf := [0x37, 0], exprDepth := e}).2.exprDepth = e + 1) ∧
    (EXPR_DEPTH_MAX ≤ e →
      (calcValue 10 {replBuf := [0x37, 0], exprDepth := e}).1 = -1 ∧
      (calcValue 10 {replBuf := [0x37, 0], exprDepth := e}).2.errorCode = ERROR_TOODEEP ∧
      (calcValue 10 {replBuf := [0x37, 0], exprDepth := e}).2.exprDepth = e + 1) := by
  have hm : (e + 1) % 256 = e + 1 := Nat.mod_eq_of_lt (by omega)
  constructor
  · intro hlt
    unfold calcValue evalE
    rw [hm]
    rw [if_neg (by simp only [EXPR_DEPTH_MAX] at hlt ⊢; omega)]
    exact ⟨rfl, rfl, rfl⟩
  · intro hge
    unfold calcValue evalE
    rw [hm]
    rw [if_pos (by simp only [EXPR_DEPTH_MAX] at hge ⊢; omega)]
    exact ⟨rfl, rfl, rfl⟩

theorem c6_exprDepth_witness :
    (calcValue 10 {replBuf := [0x37, 0], exprDepth := 3}).1 = 7 ∧
    (calcValue 10 {replBuf := [0x37, 0], exprDepth := 3}).2.exprDepth = 4 ∧
    (calcValue 10 {replBuf := [0x37, 0], exprDepth := 20}).2.errorCode = ERROR_TOODEEP :=
  ⟨((c6_exprDepth_counts_entries 3 (by decide)).1 (by decide)).1,
   ((c6_exprDepth_counts_entries 3 (by decide)).1 (by decide)).2.2,
   ((c6_exprDepth_counts_entries 20 (by decide)).2 (by decide)).2.1⟩

/-- Claim C7 counterexample: the tokenizer encodes the literal value 5 as
the single ASCII digit byte `'5'`, not as a tagged form — the digit form
is not reserved for zero. -/
theorem c7_digit_form_counterexample :
    set_dec_val ST_VAL_DEC 5 = [0x35] ∧ set_dec_val ST_VAL_DEC 5 ≠ [ST_VAL_DEC, 5] := by
  decide

/-- Claim C7: the tokenizer's value encoder emits the single ASCII digit
byte for every decimal literal value 0 through 9 (not only for zero, as
§4.1 has it), the one-byte-payload tagged form for other values in the
`int8` range, and the two-byte little-endian payload otherwise (16-bit
build); hex-tagged literals never use the digit form; `get_dec_val`
decodes every emitted encoding back to the original value. -/
theorem c7_value_literal_encoding (v : Int) (h16lo : -32768 ≤ v) (h16hi : v ≤ 32767) :
    (0 ≤ v ∧ v ≤ 9 → set_dec_val ST_VAL_DEC v = [(v + 0x30).toNat]) ∧
    (¬(0 ≤ v ∧ v ≤ 9) → -128 ≤ v → v ≤ 127 →
      set_dec_val ST_VAL_DEC v = [ST_VAL_DEC, toU16 v % 256]) ∧
    (¬(-128 ≤ v ∧ v ≤ 127) →
      set_dec_val ST_VAL_DEC v = [ST_VAL_DEC + VAL_SIZE_16, toU16 v % 256, toU16 v / 256 % 256]) ∧
    (-128 ≤ v → v ≤ 127 → set_dec_val ST_VAL_HEX v = [ST_VAL_HEX, toU16 v % 256]) ∧
    (¬(-128 ≤ v ∧ v ≤ 127) →
      set_dec_val ST_VAL_HEX v = [ST_VAL_HEX + VAL_SIZE_16, toU16 v % 256, toU16 v / 256 % 256]) ∧
    get_dec_val (set_dec_val ST_VAL_DEC v) 0 = some (v, (set_dec_val ST_VAL_DEC v).length) ∧
    get_dec_val (set_dec_val ST_VAL_HEX v) 0 = some (v, (set_dec_val ST_VAL_HEX v).length) := by
  refine ⟨?_, ?_, ?_, ?_, ?_, ?_, ?_⟩
  · intro hd
    unfold set_dec_val
    rw [if_pos ⟨rfl, hd.1, hd.2⟩]
  · intro hn hlo hhi
    unfold set_dec_val
    rw [if_neg (fun hc => hn ⟨hc.2.1, hc.2.2⟩)]
    dsimp only
    rw [if_pos ⟨hlo, hhi⟩]
  · intro hbig
    unfold set_dec_val
    rw [if_neg (fun hc => hbig ⟨by omega, by omega⟩)]
    dsimp only
    rw [if_neg hbig]
  · intro hlo hhi
    unfold set_dec_val
    rw [if_neg (fun hc => by exact absurd hc.1 (by decide))]
    dsimp only
    rw [if_pos ⟨hlo, hhi⟩]
  · intro hbig
    unfold set_dec_val
    rw [if_neg (fun hc => by exact absurd hc.1 (by decide))]
    dsimp only
    rw [if_neg hbig]
  · by_cases hd : 0 ≤ v ∧ v ≤ 9
    · unfold set_dec_val
      rw [if_pos ⟨rfl, hd.1, hd.2⟩]
      unfold get_dec_val byteAt
      simp only [List.getD, List.get?, Option.getD, List.length]
      rw [if_pos (by omega)]
      simp only [Option.some.injEq, Prod.mk.injEq, List.length_cons, List.length_nil]
      exact ⟨by omega, trivial⟩
    · by_cases h8 : -128 ≤ v ∧ v ≤ 127
      · unfold set_dec_val
        rw [if_neg (fun hc => hd ⟨hc.2.1, hc.2.2⟩)]
        dsimp only
        rw [if_pos h8]
        unfold get_dec_val byteAt
        simp only [List.getD, List.get?, Option.getD, List.length]
        norm_num [IS_ST_VAL, VAL_SIZE_8, ST_VAL_DEC]
        exact ofU8_toU16 v h8.1 h8.2
      · unfold set_dec_val
        rw [if_neg (fun hc => hd ⟨hc.2.1, hc.2.2⟩)]
        dsimp only
        rw [if_neg h8]
        unfold get_dec_val byteAt
        simp only [List.getD, List.get?, Option.getD, List.length]
        norm_num [IS_ST_VAL, VAL_SIZE_8, ST_VAL_DEC, VAL_SIZE_16]
        exact ofU16_bytes v h16lo h16hi
  · by_cases h8 : -128 ≤ v ∧ v ≤ 127
    · unfold set_dec_val
      rw [if_neg (fun hc => by exact absurd hc.1 (by decide))]
      dsimp only
      rw [if_pos h8]
      unfold get_dec_val byteAt
      simp only [List.getD, List.get?, Option.getD, List.length]
      norm_num [IS_ST_VAL, VAL_SIZE_8, ST_VAL_HEX]
      exact ofU8_toU16 v h8.1 h8.2
    · unfold set_dec_val
      rw [if_neg (fun hc => by exact absurd hc.1 (by decide))]
      dsimp only
      rw [if_neg h8]
      unfold get_dec_val byteAt
      simp only [List.getD, List.get?, Option.getD, List.length]
      norm_num [IS_ST_VAL, VAL_SIZE_8, ST_VAL_HEX, VAL_SIZE_16]
      exact ofU16_bytes v h16lo h16hi

theorem c7_value_literal_witness :
    set_dec_val ST_VAL_DEC 300 = [ST_VAL_DEC + VAL_SIZE_16, 44, 1] ∧
    get_dec_val (set_dec_val ST_VAL_DEC 300) 0 = some (300, (set_dec_val ST_VAL_DEC 300).length) :=
  ⟨(c7_value_literal_encoding 300 (by decide) (by decide)).2.2.1 (by decide),
   (c7_value_literal_encoding 300 (by decide) (by decide)).2.2.2.2.2.1⟩

/-- Claim C8: `NEXT` on a `FOR` frame falls through (popping the frame)
when the counter already equals the limit; otherwise it adds the step and
either jumps back to the frame's return point keeping the frame, or falls
through popping it once the counter has passed the limit in the step's
direction.  The quoted REPL line prints 2, 4, 6. -/
theorem c8_for_next_semantics (s : St) (fr : Frame) (v w : Int)
    (h0 : s.errorCode = ERROR_NONE) (hdel : isDelimiter s.cur = true)
    (hsp : s.stackPointer ≠ 0)
    (hfr : s.stackFrames (s.stackPointer - 1) = fr) (hty : fr.type = ST_FOR)
    (hv : s.rdVar fr.pvar = v) (hw : wrap16 (v + fr.step) = w) :
    (replRun 500 "A=2:FOR I=1 TO 3:? I*A:NEXT").output = strB "2\n\r4\n\r6\n\r" ∧
    (replRun 500 "A=2:FOR I=1 TO 3:? I*A:NEXT").errorCode = ERROR_NONE ∧
    (fr.limit = v → proc_next s = {s with stackPointer := s.stackPointer - 1}) ∧
    (fr.limit ≠ v → fr.step > 0 → fr.limit < w →
      proc_next s = {s.wrVar fr.pvar w with stackPointer := s.stackPointer - 1}) ∧
    (fr.limit ≠ v → ¬ fr.step > 0 → fr.limit > w →
      proc_next s = {s.wrVar fr.pvar w with stackPointer := s.stackPointer - 1}) ∧
    (fr.limit ≠ v → ¬ (fr.step > 0 ∧ fr.limit < w) → ¬ (¬ fr.step > 0 ∧ fr.limit > w) →
      proc_next s = {s.wrVar fr.pvar w with stackPointer := s.stackPointer, ep := fr.returnPointer, lineNumber := fr.returnLineNumber}) := by
  subst hv hw hfr
  refine ⟨by decide, by decide, ?_, ?_, ?_, ?_⟩
  all_goals
    intro hne
    unfold proc_next
    rw [checkDelimiter_id s hdel, if_neg (by rw [h0]; exact fun h => h rfl)]
    unfold popStack
    rw [if_neg hsp]
    dsimp only
    rw [if_neg (not_not_intro hty)]
    dsimp only
    simp only [rdVar_sp_irrel]
  · rw [if_pos hne]
  · intro hstep hlim
    rw [if_neg hne]
    simp only [rdVar_wrVar]
    rw [if_pos ⟨hstep, hlim⟩]
    rcases (s.stackFrames (s.stackPointer - 1)).pvar with i | i <;> rfl
  · intro hstep hlim
    rw [if_neg hne]
    simp only [rdVar_wrVar]
    rw [if_neg (fun h => hstep h.1), if_pos ⟨hstep, hlim⟩]
    rcases (s.stackFrames (s.stackPointer - 1)).pvar with i | i <;> rfl
  · intro hA hB
    rw [if_neg hne]
    simp only [rdVar_wrVar]
    rw [if_neg hA, if_neg hB]
    have hnat : s.stackPointer - 1 + 1 = s.stackPointer := by omega
    rcases (s.stackFrames (s.stackPointer - 1)).pvar with i | i <;>
      (simp only [St.wrVar]; rw [hnat])

theorem c8_for_next_witness :
    proc_next c8wit = {c8wit.wrVar (VarRef.gvar 8) 2 with stackPointer := 1, ep := ⟨Mem.prog, 9⟩, lineNumber := 4} :=
  (c8_for_next_semantics c8wit {type := ST_FOR, returnPointer := ⟨Mem.prog, 9⟩, returnLineNumber := 4, pvar := VarRef.gvar 8, limit := 3, step := 1} 1 2
    (by decide) (by decide) (by decide) rfl rfl (by decide) (by decide)).2.2.2.2.2
    (by decide) (by decide) (by decide)

/-- Claim C9 counterexample: a persisted snapshot whose header magic is
valid but whose stored length (769) exceeds the program area (768) raises
`PG area overflow` (code 9), not `PG empty` (code 10) as the claim
requires; the program area is left unchanged either way. -/
theorem c9_oversize_counterexample :
    (progLoad {eepHeader := {magic1 := 0x6e, magic2 := 0x42, progLength := 769}, progArea := [7, 7, 7]}).2.errorCode = ERROR_PGOVER ∧
    ERROR_PGOVER ≠ ERROR_PGEMPTY ∧
    (progLoad {eepHeader := {magic1 := 0x6e, magic2 := 0x42, progLength := 769}, progArea := [7, 7, 7]}).2.progArea = [7, 7, 7] ∧
    (progLoad {eepHeader := {magic1 := 0x6e, magic2 := 0x42, progLength := 769}, progArea := [7, 7, 7]}).1 = -1 := by
  decide

/-- Claim C9 as amended: `progLoad` replaces the program area only when
both magic bytes match and the stored length is between 2 and the program
area size; unknown magic and a too-short length raise `PG empty`, but an
oversized length raises `PG area overflow`, and every rejected snapshot
leaves the program area untouched. -/
theorem c9_progLoad_validation (s : St) :
    (s.eepHeader.magic1 ≠ 0x6e ∨ s.eepHeader.magic2 ≠ 0x42 →
      progLoad s = (-1, {s with errorCode := ERROR_PGEMPTY})) ∧
    (s.eepHeader.magic1 = 0x6e → s.eepHeader.magic2 = 0x42 → s.eepHeader.progLength < 2 →
      progLoad s = (-1, {s with errorCode := ERROR_PGEMPTY})) ∧
    (s.eepHeader.magic1 = 0x6e → s.eepHeader.magic2 = 0x42 →
      s.eepHeader.progLength > (PROGRAM_AREA_SIZE : Int) →
      progLoad s = (-1, {s with errorCode := ERROR_PGOVER})) ∧
    (s.eepHeader.magic1 = 0x6e → s.eepHeader.magic2 = 0x42 →
      2 ≤ s.eepHeader.progLength → s.eepHeader.progLength ≤ (PROGRAM_AREA_SIZE : Int) →
      progLoad s = ((s.eepHeader.autoRun : Int), {s with progLength := s.eepHeader.progLength, progArea := (List.range s.eepHeader.progLength.toNat).map (byteAt s.eepProg)})) := by
  refine ⟨?_, ?_, ?_, ?_⟩
  · intro hbad
    unfold progLoad
    rw [if_pos hbad]
  · intro hm1 hm2 hlen
    unfold progLoad
    rw [if_neg (by push_neg; exact ⟨hm1, hm2⟩), if_pos hlen]
  · intro hm1 hm2 hlen
    unfold progLoad
    rw [if_neg (by push_neg; exact ⟨hm1, hm2⟩), if_neg (by simp only [PROGRAM_AREA_SIZE] at hlen ⊢; omega), if_pos hlen]
  · intro hm1 hm2 hlen1 hlen2
    unfold progLoad
    rw [if_neg (by push_neg; exact ⟨hm1, hm2⟩), if_neg (by omega), if_neg (by simp only [PROGRAM_AREA_SIZE] at hlen2 ⊢; omega)]

/-- Claim C10: a GOSUB whose jump fails (bad label, error in the target
expression, or any other error raised after the frame was pushed) removes
the pushed frame again: the control-stack depth is unchanged whenever the
handler returns with an error, and grows by exactly one on success. -/
theorem c10_failed_gosub_pops_frame (n : Nat) (s : St) :
    ((proc_gosub n s).errorCode ≠ ERROR_NONE →
      (proc_gosub n s).stackPointer = s.stackPointer) ∧
    ((proc_gosub n s).errorCode = ERROR_NONE →
      (proc_gosub n s).stackPointer = s.stackPointer + 1) := by
  unfold proc_gosub
  rcases hP : pushStack ST_GOSUB s with ⟨o, s1⟩
  unfold pushStack at hP
  by_cases hsp : s.stackPointer ≥ STACK_NUM
  · rw [if_pos hsp] at hP
    injection hP with hPo hPs
    subst hPo hPs
    dsimp only
    constructor
    · intro _
      rfl
    · intro hbad
      have hb : ERROR_STACK = ERROR_NONE := hbad
      exact absurd hb (by decide)
  · rw [if_neg hsp] at hP
    injection hP with hPo hPs
    subst hPo
    dsimp only
    rcases hG : goto_sub n s1 with ⟨rp, s2⟩
    have h2 : s2.stackPointer = s1.stackPointer := by
      have h := goto_sub_sp n s1
      rw [hG] at h
      exact h
    have h1sp : s1.stackPointer = s.stackPointer + 1 := by rw [← hPs]
    dsimp only
    generalize hF : s2.setFrame s.stackPointer (fun f => {f with returnPointer := rp.getD ⟨.prog, 0⟩}) = s3
    have h3 : s3.stackPointer = s.stackPointer + 1 := by
      rw [← hF]
      show s2.stackPointer = _
      rw [h2, h1sp]
    split
    · constructor
      · intro _
        show s3.stackPointer - 1 = s.stackPointer
        rw [h3]
        omega
      · intro hbad
        rename_i hne
        exact absurd hbad hne
    · rename_i hne
      constructor
      · intro hbad
        exact absurd hbad hne
      · intro _
        exact h3

end NanoBasic
